import Mathlib

/-!
# Ask AYO v3 backend: the `/api/explain` request handlers

A shallow embedding of the two Express handlers registered with
`app.post('/api/explain', ...)`:

* `Server.explainHandler` follows `src/server.js` (OpenAI SDK client, JSON reply
  with a parse fallback);
* `FetchServer.explainHandler` follows `src/ask_ayo_v3_backend/server.js`
  (`node-fetch`, plain-text reply).

JavaScript values are embedded as `JVal`, with the conversions the handlers apply
to them (`ToBoolean`, `ToString`, property reads, `||`). The effects of a handler
run (provider calls, console output, responses sent) are collected in `Effects`,
and a thrown exception keeps the effects performed before it, as `try`/`catch`
does. What the handlers receive from outside is an argument: the request body,
the way the provider call settles, and the built-ins `JSON.parse` and
`String.prototype.toLowerCase`, whose definitions are not part of the repository.

Strings are sequences of code points, so a lone surrogate of a JavaScript string
has no counterpart; numbers are kept by their truthiness and printed form.
-/

namespace AskAyo

/-! ## JavaScript values -/

/-- A JavaScript number, kept by the two observations the handlers make of one:
whether `ToBoolean` is false (`+0`, `-0`, `NaN`) and what `Number::toString`
prints. -/
structure JNum where
  isZero : Bool
  text : String
deriving DecidableEq, Repr

mutual
/-- The JavaScript values that reach the handlers: JSON values and `undefined`. -/
inductive JVal where
  | undefined
  | null
  | bool (b : Bool)
  | num (n : JNum)
  | str (s : String)
  | arr (xs : JList)
  | obj (kvs : JFields)
/-- The elements of an array, in index order. -/
inductive JList where
  | nil
  | cons (head : JVal) (tail : JList)
/-- The own properties of a plain object, in insertion order, one per key. -/
inductive JFields where
  | nil
  | cons (key : String) (value : JVal) (rest : JFields)
end

/-- A thrown value: an `Error` with its `name` and `message`. -/
structure JsError where
  name : String
  message : String
deriving DecidableEq, Repr

namespace JFields

/-- Object literal `{ k1: v1, k2: v2, ... }`. -/
def ofList : List (String × JVal) → JFields
  | [] => nil
  | (k, v) :: r => cons k v (ofList r)

/-- The own property `k`, if the object has one. -/
def lookup (k : String) : JFields → Option JVal
  | nil => none
  | cons k2 v r => if k2 = k then some v else lookup k r

end JFields

namespace JList

/-- Array literal `[v1, v2, ...]`. -/
def ofList : List JVal → JList
  | [] => nil
  | v :: r => cons v (ofList r)

end JList

namespace JVal

/-- Object literal. -/
def object (kvs : List (String × JVal)) : JVal := obj (JFields.ofList kvs)

/-- Array literal. -/
def array (xs : List JVal) : JVal := arr (JList.ofList xs)

/-- The `TypeError` of reading a property of `null` or `undefined`. -/
def nullishRead (k : String) : JsError :=
  ⟨"TypeError", "Cannot read properties of null or undefined (reading " ++ k ++ ")"⟩

/-- The `TypeError` of `OrdinaryToPrimitive` finding no callable conversion. -/
def noPrimitive : JsError :=
  ⟨"TypeError", "Cannot convert object to primitive value"⟩

/-- The `TypeError` of calling something that is not a function. -/
def notAFunction (k : String) : JsError :=
  ⟨"TypeError", k ++ " is not a function"⟩

/-- `ToBoolean`: `undefined`, `null`, `false`, zero and the empty string are falsy. -/
def toBoolean : JVal → Bool
  | undefined => false
  | null => false
  | bool b => b
  | num n => !n.isZero
  | str s => s != ""
  | arr _ => true
  | obj _ => true

mutual
/-- `ToString`, as a template literal `${v}` applies it. A plain object prints
as `[object Object]` through `Object.prototype.toString`, unless an own
`toString` property shadows it: a JSON value is never callable, `valueOf` returns
the object itself, and `OrdinaryToPrimitive` throws. An array prints through
`Array.prototype.join`. -/
def toStr : JVal → Except JsError String
  | undefined => .ok "undefined"
  | null => .ok "null"
  | bool b => .ok (if b then "true" else "false")
  | num n => .ok n.text
  | str s => .ok s
  | arr xs => joinElems xs
  | obj kvs => if (kvs.lookup "toString").isSome then .error noPrimitive else .ok "[object Object]"
/-- `Array.prototype.join` with the default separator: `undefined` and `null`
elements print as the empty string. -/
def joinElems : JList → Except JsError String
  | .nil => .ok ""
  | .cons x .nil => elemStr x
  | .cons x r =>
    match elemStr x with
    | .error e => .error e
    | .ok a =>
      match joinElems r with
      | .error e => .error e
      | .ok b => .ok (a ++ "," ++ b)
/-- One element of `join`. -/
def elemStr : JVal → Except JsError String
  | undefined => .ok ""
  | null => .ok ""
  | bool b => .ok (if b then "true" else "false")
  | num n => .ok n.text
  | str s => .ok s
  | arr xs => joinElems xs
  | obj kvs => if (kvs.lookup "toString").isSome then .error noPrimitive else .ok "[object Object]"
end

/-- Property read `v.k`, for a name `k` that no built-in prototype defines (all
the names the handlers read are such: `text`, `context`, `choices`, `message`,
`content`, `isFinancial`, `definition`, `realTalk`, `term`). Reading from `null`
or `undefined` throws; a primitive or an array has no such property. -/
def getProp (v : JVal) (k : String) : Except JsError JVal :=
  match v with
  | undefined => .error (nullishRead k)
  | null => .error (nullishRead k)
  | obj kvs => .ok ((kvs.lookup k).getD undefined)
  | _ => .ok undefined

/-- Element read `v[0]`. -/
def getIndex0 (v : JVal) : Except JsError JVal :=
  match v with
  | undefined => .error (nullishRead "0")
  | null => .error (nullishRead "0")
  | arr .nil => .ok undefined
  | arr (.cons x _) => .ok x
  | obj kvs => .ok ((kvs.lookup "0").getD undefined)
  | str s => .ok (match s.data with | [] => undefined | c :: _ => str (String.singleton c))
  | _ => .ok undefined

/-- The operator `a || b`. -/
def orElse (a b : JVal) : JVal := if toBoolean a then a else b

end JVal

open JVal

/-! ## Effects of a handler run -/

/-- One role-tagged message of a chat request. -/
structure Message where
  role : String
  content : String
deriving DecidableEq, Repr

/-- The argument of `openai.chat.completions.create`, which is also the JSON body
posted by the fetch-based variant. -/
structure ChatRequest where
  model : String
  messages : List Message
  temperature : Rat
  max_tokens : Nat
deriving DecidableEq

/-- A call to the completion provider: through the SDK client in `src/server.js`,
through `fetch` in the other variant (`body` is the object that the source passes
to `JSON.stringify`). -/
inductive ProviderCall where
  | create (request : ChatRequest)
  | fetch (url method : String) (headers : List (String × String)) (body : ChatRequest)

/-- A response sent with `res.status(code).json(body)`; `res.json(body)` alone
sends status 200. -/
structure Response where
  status : Nat
  body : JVal

/-- An argument of a `console.log` or `console.error` call. -/
inductive LogArg where
  | text (s : String)
  | error (e : JsError)
  | value (v : JVal)

/-- What a handler run did: the provider calls issued, the console lines written
and the responses sent, each in order. -/
structure Effects where
  calls : List ProviderCall
  logs : List (List LogArg)
  sent : List Response

/-- A computation of a handler: it may throw, and it keeps the effects performed
up to the throw. -/
def Handler (α : Type) : Type := Effects → Except JsError α × Effects

namespace Handler

/-- Sequencing: a throw skips the rest. -/
def bind {α β : Type} (m : Handler α) (f : α → Handler β) : Handler β := fun s =>
  match m s with
  | (.ok a, s1) => f a s1
  | (.error e, s1) => (.error e, s1)

instance : Monad Handler where
  pure a := fun s => (.ok a, s)
  bind := bind

/-- An effect-free step that may throw. -/
def lift {α : Type} (x : Except JsError α) : Handler α := fun s => (x, s)

/-- The statement `try { m } catch (error) { h error }`. -/
def tryCatch {α : Type} (m : Handler α) (h : JsError → Handler α) : Handler α := fun s =>
  match m s with
  | (.ok a, s1) => (.ok a, s1)
  | (.error e, s1) => h e s1

/-- The call `res.status(status).json(body)`. -/
def send (status : Nat) (body : JVal) : Handler Unit := fun s =>
  (.ok (), { s with sent := s.sent ++ [⟨status, body⟩] })

/-- A `console.log` or `console.error` call. -/
def console (args : List LogArg) : Handler Unit := fun s =>
  (.ok (), { s with logs := s.logs ++ [args] })

/-- The effects of running a handler on a fresh request. -/
def run {α : Type} (m : Handler α) : Effects := (m ⟨[], [], []⟩).2

/-- The exception that escapes the handler, if one does. -/
def escaped {α : Type} (m : Handler α) : Option JsError :=
  match (m ⟨[], [], []⟩).1 with
  | .ok _ => none
  | .error e => some e

end Handler

open Handler

/-! ## `src/server.js` -/

namespace Server

/-- How the awaited `openai.chat.completions.create(...)` settles. -/
inductive ProviderOutcome where
  | rejected (error : JsError)
  | resolved (completion : JVal)

/-- The `await openai.chat.completions.create(request)` step: the call is issued,
then it throws or yields the completion. -/
def create (outcome : ProviderOutcome) (request : ChatRequest) : Handler JVal := fun s =>
  (match outcome with
   | .rejected e => .error e
   | .resolved c => .ok c,
   { s with calls := s.calls ++ [.create request] })

/-- The fixed system instruction (lines 68-105), characters as they stand in the
source file. -/
def systemPrompt : String :=
  "You are Ask AYO, a friendly financial explainer for young professionals in the UK and Europe.\n" ++
  "\n" ++
  "Your job is to determine if the highlighted text is financial jargon, and if so, explain it in TWO parts:\n" ++
  "\n" ++
  "1. **Definition**: A clear, accurate explanation (1-2 sentences)\n" ++
  "2. **Real Talk**: A warm, relatable translation that makes it click instantly\n" ++
  "\n" ++
  "REAL TALK TONE GUIDELINES:\n" ++
  "- Like Sandra Bullock explaining to a friend - warm intelligence, not performative cleverness\n" ++
  "- Use relatable analogies from everyday life\n" ++
  "- UK/European sensibility (avoid American slang like \"y\x27all\", \"awesome sauce\")\n" ++
  "- Slightly knowing, never silly or patronizing\n" ++
  "- Honest about how things actually work\n" ++
  "- 1-2 sentences maximum\n" ++
  "- Make it memorable and instantly understandable\n" ++
  "\n" ++
  "GOOD EXAMPLES:\n" ++
  "- \"Everyone thinks they\x27re above average \u00e2\u20ac\u201d math disagrees\"\n" ++
  "- \"Umbrella covers, but your shoes still get wet\"\n" ++
  "- \"Stop digging when in a hole\"\n" ++
  "- \"Money is money \u00e2\u20ac\u201d labels are traps\"\n" ++
  "\n" ++
  "AVOID:\n" ++
  "- Overly silly analogies (no \"Voltron for businesses\")\n" ++
  "- Corporate jargon\n" ++
  "- Being condescending\n" ++
  "- Trying too hard to be funny\n" ++
  "\n" ++
  "If it\x27s NOT financial jargon, politely say so.\n" ++
  "\n" ++
  "Format your response as JSON:\n" ++
  "\x7b\n" ++
  "\x20\x20\"isFinancial\": true/false,\n" ++
  "\x20\x20\"term\": \"the term\",\n" ++
  "\x20\x20\"definition\": \"clear explanation\",\n" ++
  "\x20\x20\"realTalk\": \"warm, relatable translation\",\n" ++
  "\x20\x20\"message\": \"if not financial, explain why\"\n" ++
  "\x7d"

/-- The user message (line 109). -/
def userContent (text context : JVal) : Except JsError String := do
  let t ← toStr text
  let c ← toStr (orElse context (str "No context provided"))
  pure ("Highlighted text: \"" ++ t ++ "\"\nContext: \"" ++ c ++
    "\"\n\nIs this financial jargon? If yes, explain it with both a definition and Real Talk translation.")

/-- The request passed to `create` (lines 63-114). -/
def chatRequest (content : String) : ChatRequest :=
  { model := "gpt-3.5-turbo"
    messages := [⟨"system", systemPrompt⟩, ⟨"user", content⟩]
    temperature := 7 / 10
    max_tokens := 300 }

/-- The default message of the non-financial variant (line 150). -/
def defaultMessage : String :=
  "This doesn\x27t appear to be financial jargon. Try highlighting terms like \x27dividend\x27, \x27equity\x27, or \x27portfolio\x27."

/-- The label that opens the translation segment (line 137), characters as they
stand in the source file. -/
def realTalkLabel : String := "\n\n\u00f0\u0178\u2019\u00ac **Real Talk:** "

/-- The expression `completion.choices[0].message.content` (line 116). -/
def replyContent (completion : JVal) : Except JsError JVal := do
  let choices ← getProp completion "choices"
  let first ← getIndex0 choices
  let message ← getProp first "message"
  getProp message "content"

/-- The inner `try { parsed = JSON.parse(response) } catch (e) { ... }` (lines
119-130). `JSON.parse` converts its argument to a string first; any throw takes
the fallback. -/
def parseReply (jsonParse : String → Except JsError JVal) (text response : JVal) : JVal :=
  match toStr response >>= jsonParse with
  | .ok v => v
  | .error _ =>
    object [("isFinancial", bool true), ("term", text), ("definition", response),
      ("realTalk", null)]

/-- The explanation string (lines 134-138). -/
def buildExplanation (definition realTalk : JVal) : Except JsError String := do
  let d ← toStr definition
  let explanation := "**" ++ d ++ "**"
  if toBoolean realTalk then
    let r ← toStr realTalk
    pure (explanation ++ realTalkLabel ++ r)
  else
    pure explanation

/-- The branch on the parsed reply (lines 132-152). -/
def interpret (text parsed : JVal) : Handler Unit := do
  let isFinancial ← lift (getProp parsed "isFinancial")
  if toBoolean isFinancial then
    let definition ← lift (getProp parsed "definition")
    let realTalk ← lift (getProp parsed "realTalk")
    let explanation ← lift (buildExplanation definition realTalk)
    let term ← lift (getProp parsed "term")
    send 200 (object [("success", bool true), ("isFinancial", bool true),
      ("term", orElse term text), ("explanation", str explanation)])
  else
    let message ← lift (getProp parsed "message")
    send 200 (object [("success", bool true), ("isFinancial", bool false),
      ("message", orElse message (str defaultMessage))])

/-- The body of the `try` block (lines 53-152). -/
def explainBody (jsonParse : String → Except JsError JVal) (outcome : ProviderOutcome)
    (body : JVal) : Handler Unit := do
  let text ← lift (getProp body "text")
  let context ← lift (getProp body "context")
  if !toBoolean text then
    send 400 (object [("success", bool false), ("error", str "Text is required")])
  else do
    let content ← lift (userContent text context)
    let completion ← create outcome (chatRequest content)
    let response ← lift (replyContent completion)
    interpret text (parseReply jsonParse text response)

/-- The `catch (error)` block (lines 154-160). -/
def catchBlock (error : JsError) : Handler Unit := do
  console [.text "OpenAI API error:", .error error]
  send 500 (object [("success", bool false), ("error", str "Failed to generate explanation")])

/-- The handler of `app.post(\x27/api/explain\x27, ...)` (lines 51-161): `req.body` is
`body`; `JSON.parse` and the provider's answer are given. -/
def explainHandler (jsonParse : String → Except JsError JVal) (outcome : ProviderOutcome)
    (body : JVal) : Handler Unit :=
  tryCatch (explainBody jsonParse outcome body) catchBlock

end Server

/-! ## `src/ask_ayo_v3_backend/server.js` -/

namespace FetchServer

/-- `WhiteSpace` and `LineTerminator` code points, the ones that
`String.prototype.trim` strips. -/
def isWhiteSpace (c : Char) : Bool :=
  c.toNat ∈ [0x9, 0xA, 0xB, 0xC, 0xD, 0x20, 0xA0, 0x1680, 0x2028, 0x2029, 0x202F, 0x205F,
    0x3000, 0xFEFF] || (0x2000 ≤ c.toNat && c.toNat ≤ 0x200A)

/-- `String.prototype.trim`. -/
def trim (s : String) : String :=
  ⟨((s.data.dropWhile isWhiteSpace).reverse.dropWhile isWhiteSpace).reverse⟩

/-- `String.prototype.includes`: `pat` occurs in `s` as a contiguous run. -/
def includes (s pat : String) : Bool :=
  s.data.tails.any (fun t => pat.data.isPrefixOf t)

/-- The method call `content.trim()`: only a string has the method. -/
def trimCall (content : JVal) : Except JsError String :=
  match content with
  | str s => .ok (trim s)
  | undefined => .error (nullishRead "trim")
  | null => .error (nullishRead "trim")
  | _ => .error (notAFunction "trim")

/-- How the provider round trip settles: the dynamic `import(\x27node-fetch\x27)` or
the `fetch` call rejects, or a response arrives with its `ok` flag and with the
way `await response.json()` settles. -/
inductive FetchOutcome where
  | importRejected (error : JsError)
  | rejected (error : JsError)
  | responded (ok : Bool) (json : Except JsError JVal)

/-- The step `(await import(\x27node-fetch\x27)).default` (line 49). -/
def importFetch (outcome : FetchOutcome) : Handler Unit :=
  match outcome with
  | .importRejected e => lift (.error e)
  | _ => pure ()

/-- The step `await fetch(url, init)` (lines 50-73): the call is issued, then it
throws or yields the response. -/
def fetch (outcome : FetchOutcome) (call : ProviderCall) :
    Handler (Bool × Except JsError JVal) := fun s =>
  (match outcome with
   | .importRejected e => .error e
   | .rejected e => .error e
   | .responded ok json => .ok (ok, json),
   { s with calls := s.calls ++ [call] })

/-- The fixed system instruction (line 61). -/
def systemPrompt : String :=
  "You are a helpful financial assistant. When given text, determine if it contains " ++
  "financial jargon or terms. If yes, provide a simple, clear explanation in 2-3 sentences " ++
  "suitable for beginners. If no, respond with \"Not financial jargon\". Be concise and friendly."

/-- The user message (lines 65-67). -/
def userContent (text context : JVal) : Except JsError String :=
  if toBoolean context then do
    let t ← toStr text
    let c ← toStr context
    pure ("Explain this financial term: \"" ++ t ++ "\" (used in context: \"" ++ c ++ "\")")
  else do
    let t ← toStr text
    pure ("Explain this financial term: \"" ++ t ++ "\"")

/-- The arguments of `fetch` (lines 50-73); `apiKey` is
`process.env.OPENAI_API_KEY`, absent when the variable is not set. -/
def fetchCall (apiKey : Option String) (content : String) : ProviderCall :=
  .fetch "https://api.openai.com/v1/chat/completions" "POST"
    [("Content-Type", "application/json"),
     ("Authorization", "Bearer " ++ apiKey.getD "undefined")]
    { model := "gpt-3.5-turbo"
      messages := [⟨"system", systemPrompt⟩, ⟨"user", content⟩]
      temperature := 7 / 10
      max_tokens := 150 }

/-- The expression `data.choices[0].message.content` (line 85). -/
def replyContent (data : JVal) : Except JsError JVal := do
  let choices ← getProp data "choices"
  let first ← getIndex0 choices
  let message ← getProp first "message"
  getProp message "content"

/-- What follows the `fetch` call (lines 75-104): `ok` is `response.ok`, `json`
is how `await response.json()` settles. -/
def respond (toLowerCase : String → String) (text : JVal) (ok : Bool)
    (json : Except JsError JVal) : Handler Unit :=
  if !ok then do
    let error ← lift json
    console [.text "OpenAI API error:", .value error]
    send 500 (object [("success", bool false),
      ("error", str "Failed to get explanation from AI")])
  else do
    let data ← lift json
    let reply ← lift (replyContent data)
    let explanation ← lift (trimCall reply)
    if includes (toLowerCase explanation) "not financial jargon" then
      send 200 (object [("success", bool true), ("isFinancial", bool false),
        ("message", str "This doesn\x27t appear to be financial jargon.")])
    else
      let shown ← lift (toStr text)
      console [.text ("Explained: \"" ++ shown ++ "\"")]
      send 200 (object [("success", bool true), ("isFinancial", bool true),
        ("term", text), ("explanation", str explanation)])

/-- The body of the `try` block (lines 39-104). -/
def explainBody (toLowerCase : String → String) (apiKey : Option String)
    (outcome : FetchOutcome) (body : JVal) : Handler Unit := do
  let text ← lift (getProp body "text")
  let context ← lift (getProp body "context")
  if !toBoolean text then
    send 400 (object [("success", bool false), ("error", str "Text is required")])
  else do
    importFetch outcome
    let content ← lift (userContent text context)
    let (ok, json) ← fetch outcome (fetchCall apiKey content)
    respond toLowerCase text ok json

/-- The `catch (error)` block (lines 106-112). -/
def catchBlock (error : JsError) : Handler Unit := do
  console [.text "Error:", .error error]
  send 500 (object [("success", bool false), ("error", str "Internal server error")])

/-- The handler of `app.post(\x27/api/explain\x27, ...)` (lines 37-113). -/
def explainHandler (toLowerCase : String → String) (apiKey : Option String)
    (outcome : FetchOutcome) (body : JVal) : Handler Unit :=
  tryCatch (explainBody toLowerCase apiKey outcome body) catchBlock

end FetchServer

/-! ## Response shapes -/

/-- The validation response of both variants: 400 with this body. -/
def validationBody : JVal :=
  object [("success", bool false), ("error", str "Text is required")]

/-- The failure envelope `{ success: false, error }` with a given message. -/
def failureBody (message : String) : JVal :=
  object [("success", bool false), ("error", str message)]

/-- The financial variant `{ success: true, isFinancial: true, term, explanation }`. -/
def financialBody (term : JVal) (explanation : String) : JVal :=
  object [("success", bool true), ("isFinancial", bool true), ("term", term),
    ("explanation", str explanation)]

/-- The non-financial variant `{ success: true, isFinancial: false, message }`. -/
def nonFinancialBody (message : JVal) : JVal :=
  object [("success", bool true), ("isFinancial", bool false), ("message", message)]

/-- A response is the financial variant: status 200 and that body. -/
def Response.isFinancialVariant (r : Response) : Prop :=
  r.status = 200 ∧ ∃ term explanation, r.body = financialBody term explanation

/-- A response is the non-financial variant: status 200 and that body. -/
def Response.isNonFinancialVariant (r : Response) : Prop :=
  r.status = 200 ∧ ∃ message, r.body = nonFinancialBody message

/-- A response is a failure envelope with the given status. -/
def Response.isFailure (status : Nat) (r : Response) : Prop :=
  r.status = status ∧ ∃ message, r.body = failureBody message

/-- The completion object whose first choice carries `content`. -/
def completionWith (content : JVal) : JVal :=
  object [("choices", array [object [("message", object [("content", content)])]])]

/-- The `SyntaxError` that `JSON.parse` throws on a text that is not JSON. -/
def syntaxError : JsError := ⟨"SyntaxError", "Unexpected token in JSON"⟩

/-- The reply text of the dividend scenario. -/
def dividendReply : String :=
  "\x7b\"isFinancial\":true,\"term\":\"dividend\"," ++
  "\"definition\":\"A portion of profit paid to shareholders.\"," ++
  "\"realTalk\":\"Like a thank-you check from the company for owning a piece of it.\"\x7d"

/-- The object that `JSON.parse` returns on `dividendReply`. -/
def dividendParsed : JVal :=
  object [("isFinancial", bool true), ("term", str "dividend"),
    ("definition", str "A portion of profit paid to shareholders."),
    ("realTalk", str "Like a thank-you check from the company for owning a piece of it.")]

/-- A lowercasing of the ASCII letters, used to run the fetch-based handler on
concrete inputs. -/
def asciiLower (s : String) : String := ⟨s.data.map Char.toLower⟩

/-! ## Evaluation lemmas -/

theorem Handler.lift_ok_bind {α β : Type} (a : α) (f : α → Handler β) :
    (lift (.ok a) >>= f) = f a := by
  funext s; rfl

theorem Handler.lift_error_bind {α β : Type} (e : JsError) (f : α → Handler β) :
    (lift (.error e : Except JsError α) >>= f) = lift (.error e) := by
  funext s; rfl

theorem Handler.bind_apply {α β : Type} (m : Handler α) (f : α → Handler β) (s : Effects) :
    (m >>= f) s = match m s with
      | (.ok a, s1) => f a s1
      | (.error e, s1) => (.error e, s1) := rfl

/-- A property read that succeeds on a value succeeds for every name. -/
theorem JVal.getProp_ok_of_ok {v a : JVal} {k : String} (h : getProp v k = .ok a)
    (k2 : String) : ∃ b, getProp v k2 = .ok b := by
  cases v <;> simp_all [getProp]

/-- A value other than `null` and `undefined` has every property readable. -/
theorem JVal.getProp_of_not_nullish (v : JVal) (h1 : v ≠ null) (h2 : v ≠ undefined) (k : String) :
    ∃ b, getProp v k = .ok b := by
  cases v <;> simp_all [getProp]

/-- A successful `try` block leaves the catch block out. -/
theorem Handler.tryCatch_ok {α : Type} (m : Handler α) (h : JsError → Handler α) (s s1 : Effects)
    (a : α) (hm : m s = (.ok a, s1)) : Handler.tryCatch m h s = (.ok a, s1) := by
  simp [Handler.tryCatch, hm]

/-- A throwing `try` block runs the catch block on the effects so far. -/
theorem Handler.tryCatch_error {α : Type} (m : Handler α) (h : JsError → Handler α) (s s1 : Effects)
    (e : JsError) (hm : m s = (.error e, s1)) : Handler.tryCatch m h s = h e s1 := by
  simp [Handler.tryCatch, hm]

/-- The statuses of the responses other than the validation response. -/
theorem Response.not_validation_of_shape (r : Response)
    (h : (∃ m, m ≠ "Text is required" ∧ r = ⟨500, failureBody m⟩)
      ∨ r.isFinancialVariant ∨ r.isNonFinancialVariant) :
    r.status ≠ 400 ∧ getProp r.body "error" ≠ .ok (str "Text is required") := by
  rcases h with ⟨m, hm, h⟩ | h | h
  · subst h
    refine ⟨by simp, ?_⟩
    simp [failureBody, object, JFields.ofList, getProp, JFields.lookup]
    exact hm
  · obtain ⟨hs, tm, ex, hb⟩ := h
    refine ⟨by rw [hs]; decide, ?_⟩
    rw [hb]
    simp [financialBody, object, JFields.ofList, getProp, JFields.lookup]
  · obtain ⟨hs, m, hb⟩ := h
    refine ⟨by rw [hs]; decide, ?_⟩
    rw [hb]
    simp [nonFinancialBody, object, JFields.ofList, getProp, JFields.lookup]

/-! ## Runs of the handler of `src/server.js` -/

namespace Server

theorem interpret_throw_read (text parsed : JVal) (e : JsError)
    (h : getProp parsed "isFinancial" = .error e) (s : Effects) :
    interpret text parsed s = (.error e, s) := by
  simp [interpret, h, Handler.bind_apply, lift]

theorem interpret_financial (text parsed f d rt t : JVal) (e : String)
    (hf : getProp parsed "isFinancial" = .ok f) (htf : toBoolean f = true)
    (hd : getProp parsed "definition" = .ok d) (hrt : getProp parsed "realTalk" = .ok rt)
    (ht : getProp parsed "term" = .ok t) (he : buildExplanation d rt = .ok e) (s : Effects) :
    interpret text parsed s
      = (.ok (), { s with sent := s.sent ++ [⟨200, financialBody (orElse t text) e⟩] }) := by
  simp [interpret, hf, htf, hd, hrt, ht, he, Handler.lift_ok_bind, send, financialBody]

theorem interpret_financial_throw (text parsed f d rt : JVal) (e : JsError)
    (hf : getProp parsed "isFinancial" = .ok f) (htf : toBoolean f = true)
    (hd : getProp parsed "definition" = .ok d) (hrt : getProp parsed "realTalk" = .ok rt)
    (he : buildExplanation d rt = .error e) (s : Effects) :
    interpret text parsed s = (.error e, s) := by
  simp [interpret, hf, htf, hd, hrt, he, Handler.lift_ok_bind, Handler.lift_error_bind, lift]

theorem interpret_nonFinancial (text parsed f m : JVal)
    (hf : getProp parsed "isFinancial" = .ok f) (htf : toBoolean f = false)
    (hm : getProp parsed "message" = .ok m) (s : Effects) :
    interpret text parsed s
      = (.ok (), { s with sent := s.sent ++
          [⟨200, nonFinancialBody (orElse m (str defaultMessage))⟩] }) := by
  simp [interpret, hf, htf, hm, Handler.lift_ok_bind, send, nonFinancialBody]

/-- The effects of the `catch` block after effects `s`. -/
theorem catchBlock_apply (e : JsError) (s : Effects) :
    catchBlock e s = (.ok (), { s with
      logs := s.logs ++ [[.text "OpenAI API error:", .error e]]
      sent := s.sent ++ [⟨500, failureBody "Failed to generate explanation"⟩] }) := by
  simp [catchBlock, Handler.bind_apply, console, send, failureBody]

/-- Reading `req.body` throws: the catch block answers. -/
theorem handler_body_throw (jsonParse : String → Except JsError JVal) (outcome : ProviderOutcome)
    (body : JVal) (e : JsError) (h : getProp body "text" = .error e) :
    explainHandler jsonParse outcome body ⟨[], [], []⟩
      = (.ok (), ⟨[], [[.text "OpenAI API error:", .error e]],
          [⟨500, failureBody "Failed to generate explanation"⟩]⟩) := by
  simp [explainHandler, explainBody, Handler.tryCatch, h, Handler.lift_error_bind, lift, catchBlock_apply]

/-- A falsy `text`: the validation response, and nothing else. -/
theorem handler_invalid (jsonParse : String → Except JsError JVal) (outcome : ProviderOutcome)
    (body text : JVal) (h : getProp body "text" = .ok text) (ht : toBoolean text = false) :
    explainHandler jsonParse outcome body ⟨[], [], []⟩
      = (.ok (), ⟨[], [], [⟨400, validationBody⟩]⟩) := by
  obtain ⟨c, hc⟩ := getProp_ok_of_ok h "context"
  simp [explainHandler, explainBody, Handler.tryCatch, h, hc, ht, Handler.lift_ok_bind, send,
    validationBody]

/-- A truthy `text` whose prompt cannot be built: no call, the catch block answers. -/
theorem handler_prompt_throw (jsonParse : String → Except JsError JVal)
    (outcome : ProviderOutcome) (body text context : JVal) (e : JsError)
    (h : getProp body "text" = .ok text) (hc : getProp body "context" = .ok context)
    (ht : toBoolean text = true) (hu : userContent text context = .error e) :
    explainHandler jsonParse outcome body ⟨[], [], []⟩
      = (.ok (), ⟨[], [[.text "OpenAI API error:", .error e]],
          [⟨500, failureBody "Failed to generate explanation"⟩]⟩) := by
  simp [explainHandler, explainBody, Handler.tryCatch, h, hc, ht, hu, Handler.lift_ok_bind,
    Handler.lift_error_bind, lift, catchBlock_apply]

/-- The `try` block on a request that passes validation and whose prompt is built. -/
theorem explainBody_valid (jsonParse : String → Except JsError JVal)
    (outcome : ProviderOutcome) (body text context : JVal) (content : String)
    (h : getProp body "text" = .ok text) (hc : getProp body "context" = .ok context)
    (ht : toBoolean text = true) (hu : userContent text context = .ok content) :
    explainBody jsonParse outcome body
      = (create outcome (chatRequest content) >>= fun completion =>
          lift (replyContent completion) >>= fun response =>
            interpret text (parseReply jsonParse text response)) := by
  simp [explainBody, h, hc, ht, hu, Handler.lift_ok_bind]

/-- The provider call rejects: one call, the catch block answers. -/
theorem handler_rejected (jsonParse : String → Except JsError JVal)
    (body text context : JVal) (content : String) (e : JsError)
    (h : getProp body "text" = .ok text) (hc : getProp body "context" = .ok context)
    (ht : toBoolean text = true) (hu : userContent text context = .ok content) :
    explainHandler jsonParse (.rejected e) body ⟨[], [], []⟩
      = (.ok (), ⟨[.create (chatRequest content)], [[.text "OpenAI API error:", .error e]],
          [⟨500, failureBody "Failed to generate explanation"⟩]⟩) := by
  rw [explainHandler, explainBody_valid jsonParse _ body text context content h hc ht hu]
  simp [Handler.tryCatch, Handler.bind_apply, create, catchBlock_apply]

/-- The provider call resolves: one call, then the reply is read and interpreted
under the `try`. -/
theorem handler_resolved (jsonParse : String → Except JsError JVal)
    (body text context completion : JVal) (content : String)
    (h : getProp body "text" = .ok text) (hc : getProp body "context" = .ok context)
    (ht : toBoolean text = true) (hu : userContent text context = .ok content) :
    explainHandler jsonParse (.resolved completion) body ⟨[], [], []⟩
      = Handler.tryCatch (lift (replyContent completion) >>= fun response =>
            interpret text (parseReply jsonParse text response)) catchBlock
          ⟨[.create (chatRequest content)], [], []⟩ := by
  rw [explainHandler, explainBody_valid jsonParse _ body text context content h hc ht hu]
  simp [Handler.tryCatch, Handler.bind_apply, create]

/-- The user message for a string text. -/
theorem userContent_str (t : String) (context : JVal) (c : String)
    (hc : toStr (orElse context (str "No context provided")) = .ok c) :
    userContent (str t) context = .ok ("Highlighted text: \"" ++ t ++ "\"\nContext: \"" ++ c ++
      "\"\n\nIs this financial jargon? If yes, explain it with both a definition and Real Talk translation.") := by
  have ht : toStr (str t) = .ok t := rfl
  simp only [userContent, ht, hc, Bind.bind, Except.bind, Pure.pure, Except.pure]

/-- The parse fallback object and its fields. -/
theorem parseReply_error (jsonParse : String → Except JsError JVal) (text : JVal)
    (reply : String) (e : JsError) (h : jsonParse reply = .error e) :
    parseReply jsonParse text (str reply)
      = object [("isFinancial", bool true), ("term", text), ("definition", str reply),
          ("realTalk", null)] := by
  have ht : toStr (str reply) = .ok reply := rfl
  simp only [parseReply, ht, Bind.bind, Except.bind, h]

theorem parseReply_ok (jsonParse : String → Except JsError JVal) (text : JVal)
    (reply : String) (v : JVal) (h : jsonParse reply = .ok v) :
    parseReply jsonParse text (str reply) = v := by
  have ht : toStr (str reply) = .ok reply := rfl
  simp only [parseReply, ht, Bind.bind, Except.bind, h]

/-- The handler when the provider resolved with a reply that is read. -/
theorem handler_reply (jsonParse : String → Except JsError JVal)
    (body text context completion response : JVal) (content : String)
    (h : getProp body "text" = .ok text) (hc : getProp body "context" = .ok context)
    (ht : toBoolean text = true) (hu : userContent text context = .ok content)
    (hr : replyContent completion = .ok response) :
    explainHandler jsonParse (.resolved completion) body ⟨[], [], []⟩
      = Handler.tryCatch (interpret text (parseReply jsonParse text response)) catchBlock
          ⟨[.create (chatRequest content)], [], []⟩ := by
  rw [handler_resolved jsonParse body text context completion content h hc ht hu, hr,
    Handler.lift_ok_bind]

/-- The interpretation of the fallback object. -/
theorem interpret_fallback (text : JVal) (reply : String) (htext : toBoolean text = true)
    (s : Effects) :
    interpret text (object [("isFinancial", bool true), ("term", text),
        ("definition", str reply), ("realTalk", null)]) s
      = (.ok (), { s with sent := s.sent ++
          [⟨200, financialBody text ("**" ++ reply ++ "**")⟩] }) := by
  have h := interpret_financial text (object [("isFinancial", bool true), ("term", text),
      ("definition", str reply), ("realTalk", null)]) (bool true) (str reply) null text
      ("**" ++ reply ++ "**") rfl rfl rfl rfl rfl rfl s
  simpa [orElse, htext] using h

/-- The handler on a reply on which `JSON.parse` throws. -/
theorem handler_fallback (jsonParse : String → Except JsError JVal)
    (body context completion : JVal) (t content reply : String) (e : JsError)
    (h : getProp body "text" = .ok (str t)) (ht : t ≠ "")
    (hc : getProp body "context" = .ok context)
    (hu : userContent (str t) context = .ok content)
    (hr : replyContent completion = .ok (str reply))
    (hp : jsonParse reply = .error e) :
    (explainHandler jsonParse (.resolved completion) body).run.sent
      = [⟨200, financialBody (str t) ("**" ++ reply ++ "**")⟩] := by
  have htt : toBoolean (str t) = true := by simp [toBoolean, ht]
  rw [Handler.run, handler_reply jsonParse body (str t) context completion (str reply)
    content h hc htt hu hr, parseReply_error jsonParse (str t) reply e hp,
    tryCatch_ok _ _ _ _ _ (interpret_fallback (str t) reply htt _)]
  rfl

/-- The explanation with a translation segment. -/
theorem buildExplanation_realTalk (d : JVal) (ds r : String) (hds : toStr d = .ok ds)
    (hr : r ≠ "") :
    buildExplanation d (str r) = .ok ("**" ++ ds ++ "**" ++ realTalkLabel ++ r) := by
  have hs : toStr (str r) = .ok r := rfl
  simp [buildExplanation, hds, hs, toBoolean, hr, Bind.bind, Except.bind, Pure.pure,
    Except.pure]

/-- The explanation without a translation segment. -/
theorem buildExplanation_plain (d rt : JVal) (ds : String) (hds : toStr d = .ok ds)
    (hrt : rt = undefined ∨ rt = null ∨ rt = str "") :
    buildExplanation d rt = .ok ("**" ++ ds ++ "**") := by
  rcases hrt with h | h | h <;> subst h <;>
    simp [buildExplanation, hds, toBoolean, Bind.bind, Except.bind, Pure.pure, Except.pure]

/-- The handler on a reply that parses to a value marked financial whose
explanation is built. -/
theorem handler_financial (jsonParse : String → Except JsError JVal)
    (body context completion v f d rt tm : JVal) (t content reply ex : String)
    (h : getProp body "text" = .ok (str t)) (ht : t ≠ "")
    (hc : getProp body "context" = .ok context)
    (hu : userContent (str t) context = .ok content)
    (hr : replyContent completion = .ok (str reply))
    (hp : jsonParse reply = .ok v)
    (hf : getProp v "isFinancial" = .ok f) (hb : toBoolean f = true)
    (hd : getProp v "definition" = .ok d) (hrt : getProp v "realTalk" = .ok rt)
    (htm : getProp v "term" = .ok tm) (hex : buildExplanation d rt = .ok ex) :
    (explainHandler jsonParse (.resolved completion) body).run.sent
      = [⟨200, financialBody (orElse tm (str t)) ex⟩] := by
  have htt : toBoolean (str t) = true := by simp [toBoolean, ht]
  rw [Handler.run, handler_reply jsonParse body (str t) context completion (str reply)
    content h hc htt hu hr, parseReply_ok jsonParse (str t) reply v hp,
    tryCatch_ok _ _ _ _ _ (interpret_financial (str t) v f d rt tm ex hf hb hd hrt htm hex _)]
  rfl

/-- An explanation that is built starts with the definition segment. -/
theorem buildExplanation_prefix (d rt : JVal) (ds ex : String) (hds : toStr d = .ok ds)
    (hex : buildExplanation d rt = .ok ex) : ∃ rest, ex = "**" ++ ds ++ "**" ++ rest := by
  cases hb : toBoolean rt with
  | false =>
    simp [buildExplanation, hds, hb, Bind.bind, Except.bind, Pure.pure, Except.pure] at hex
    exact ⟨"", by simp [← hex]⟩
  | true =>
    cases hr : toStr rt with
    | error e =>
      simp [buildExplanation, hds, hb, hr, Bind.bind, Except.bind] at hex
    | ok rs =>
      simp [buildExplanation, hds, hb, hr, Bind.bind, Except.bind, Pure.pure, Except.pure]
        at hex
      exact ⟨realTalkLabel ++ rs, by simp [← hex, String.append_assoc]⟩

/-- The handler on a reply that parses to a value marked financial whose
explanation cannot be built: the catch block answers. -/
theorem handler_financial_throw (jsonParse : String → Except JsError JVal)
    (body context completion v f d rt : JVal) (t content reply : String) (e : JsError)
    (h : getProp body "text" = .ok (str t)) (ht : t ≠ "")
    (hc : getProp body "context" = .ok context)
    (hu : userContent (str t) context = .ok content)
    (hr : replyContent completion = .ok (str reply))
    (hp : jsonParse reply = .ok v)
    (hf : getProp v "isFinancial" = .ok f) (hb : toBoolean f = true)
    (hd : getProp v "definition" = .ok d) (hrt : getProp v "realTalk" = .ok rt)
    (hex : buildExplanation d rt = .error e) :
    (explainHandler jsonParse (.resolved completion) body).run.sent
      = [⟨500, failureBody "Failed to generate explanation"⟩] := by
  have htt : toBoolean (str t) = true := by simp [toBoolean, ht]
  rw [Handler.run, handler_reply jsonParse body (str t) context completion (str reply)
    content h hc htt hu hr, parseReply_ok jsonParse (str t) reply v hp,
    Handler.tryCatch_error _ _ _ _ _
      (interpret_financial_throw (str t) v f d rt e hf hb hd hrt hex _), catchBlock_apply]
  rfl

/-- The explanation fields of the responses sent on a reply marked financial are
fixed by the definition and the realTalk of the reply. -/
theorem handler_financial_explanation (jsonParse : String → Except JsError JVal)
    (body context completion v f d rt : JVal) (t content reply : String)
    (h : getProp body "text" = .ok (str t)) (ht : t ≠ "")
    (hc : getProp body "context" = .ok context)
    (hu : userContent (str t) context = .ok content)
    (hr : replyContent completion = .ok (str reply))
    (hp : jsonParse reply = .ok v)
    (hf : getProp v "isFinancial" = .ok f) (hb : toBoolean f = true)
    (hd : getProp v "definition" = .ok d) (hrt : getProp v "realTalk" = .ok rt) :
    (∀ ex, buildExplanation d rt = .ok ex →
      (explainHandler jsonParse (.resolved completion) body).run.sent.map
        (fun r => getProp r.body "explanation") = [.ok (str ex)])
    ∧ (∀ e, buildExplanation d rt = .error e →
      (explainHandler jsonParse (.resolved completion) body).run.sent.map
        (fun r => getProp r.body "explanation") = [.ok undefined]) := by
  obtain ⟨tm, htm⟩ := getProp_ok_of_ok hf "term"
  constructor
  · intro ex hex
    rw [handler_financial jsonParse body context completion v f d rt tm t content reply ex
      h ht hc hu hr hp hf hb hd hrt htm hex]
    rfl
  · intro e hex
    rw [handler_financial_throw jsonParse body context completion v f d rt t content reply e
      h ht hc hu hr hp hf hb hd hrt hex]
    rfl

/-- The handler on a reply that parses to a value not marked financial. -/
theorem handler_nonFinancial (jsonParse : String → Except JsError JVal)
    (body context completion v f m : JVal) (t content reply : String)
    (h : getProp body "text" = .ok (str t)) (ht : t ≠ "")
    (hc : getProp body "context" = .ok context)
    (hu : userContent (str t) context = .ok content)
    (hr : replyContent completion = .ok (str reply))
    (hp : jsonParse reply = .ok v)
    (hf : getProp v "isFinancial" = .ok f) (hb : toBoolean f = false)
    (hm : getProp v "message" = .ok m) :
    (explainHandler jsonParse (.resolved completion) body).run.sent
      = [⟨200, nonFinancialBody (orElse m (str defaultMessage))⟩] := by
  have htt : toBoolean (str t) = true := by simp [toBoolean, ht]
  rw [Handler.run, handler_reply jsonParse body (str t) context completion (str reply)
    content h hc htt hu hr, parseReply_ok jsonParse (str t) reply v hp,
    tryCatch_ok _ _ _ _ _ (interpret_nonFinancial (str t) v f m hf hb hm _)]
  rfl

/-- The branch on the parsed reply sends one 200 response of one of the two
variants, or throws before sending anything. -/
theorem interpret_total (text parsed : JVal) (s : Effects) :
    (∃ r, interpret text parsed s = (.ok (), { s with sent := s.sent ++ [r] })
        ∧ (r.isFinancialVariant ∨ r.isNonFinancialVariant))
    ∨ (∃ e, interpret text parsed s = (.error e, s)) := by
  cases hf : getProp parsed "isFinancial" with
  | error e => exact Or.inr ⟨e, interpret_throw_read text parsed e hf s⟩
  | ok f =>
    obtain ⟨d, hd⟩ := getProp_ok_of_ok hf "definition"
    obtain ⟨rt, hrt⟩ := getProp_ok_of_ok hf "realTalk"
    obtain ⟨tm, htm⟩ := getProp_ok_of_ok hf "term"
    obtain ⟨m, hm⟩ := getProp_ok_of_ok hf "message"
    cases hb : toBoolean f with
    | false =>
      exact Or.inl ⟨_, interpret_nonFinancial text parsed f m hf hb hm s, Or.inr ⟨rfl, _, rfl⟩⟩
    | true =>
      cases hex : buildExplanation d rt with
      | error e =>
        exact Or.inr ⟨e, interpret_financial_throw text parsed f d rt e hf hb hd hrt hex s⟩
      | ok ex =>
        exact Or.inl ⟨_, interpret_financial text parsed f d rt tm ex hf hb hd hrt htm hex s,
          Or.inl ⟨rfl, _, _, rfl⟩⟩

/-- A request with a truthy text ends normally with exactly one response sent: the
500 failure envelope or a 200 variant. -/
theorem handler_valid_total (jsonParse : String → Except JsError JVal)
    (outcome : ProviderOutcome) (body text : JVal)
    (h : getProp body "text" = .ok text) (ht : toBoolean text = true) :
    ∃ r calls logs, explainHandler jsonParse outcome body ⟨[], [], []⟩
        = (.ok (), ⟨calls, logs, [r]⟩)
      ∧ (r = ⟨500, failureBody "Failed to generate explanation"⟩
          ∨ r.isFinancialVariant ∨ r.isNonFinancialVariant) := by
  obtain ⟨context, hc⟩ := getProp_ok_of_ok h "context"
  cases hu : userContent text context with
  | error e =>
    exact ⟨_, _, _, handler_prompt_throw jsonParse outcome body text context e h hc ht hu,
      Or.inl rfl⟩
  | ok content =>
    cases outcome with
    | rejected e =>
      exact ⟨_, _, _, handler_rejected jsonParse body text context content e h hc ht hu,
        Or.inl rfl⟩
    | resolved completion =>
      rw [handler_resolved jsonParse body text context completion content h hc ht hu]
      cases hr : replyContent completion with
      | error e =>
        rw [Handler.lift_error_bind,
          tryCatch_error (lift (.error e)) catchBlock _ _ e rfl, catchBlock_apply]
        exact ⟨_, _, _, rfl, Or.inl rfl⟩
      | ok response =>
        rw [Handler.lift_ok_bind]
        rcases interpret_total text (parseReply jsonParse text response)
          ⟨[.create (chatRequest content)], [], []⟩ with ⟨r, hr1, hr2⟩ | ⟨e, he⟩
        · rw [tryCatch_ok _ _ _ _ _ hr1]
          exact ⟨r, _, _, rfl, Or.inr hr2⟩
        · rw [tryCatch_error _ _ _ _ _ he, catchBlock_apply]
          exact ⟨_, _, _, rfl, Or.inl rfl⟩

/-- Every run of the handler ends normally with exactly one response sent, of one
of the four shapes. -/
theorem handler_total (jsonParse : String → Except JsError JVal) (outcome : ProviderOutcome)
    (body : JVal) :
    ∃ r calls logs, explainHandler jsonParse outcome body ⟨[], [], []⟩
        = (.ok (), ⟨calls, logs, [r]⟩)
      ∧ (r = ⟨400, validationBody⟩
          ∨ r = ⟨500, failureBody "Failed to generate explanation"⟩
          ∨ r.isFinancialVariant ∨ r.isNonFinancialVariant) := by
  cases h : getProp body "text" with
  | error e => exact ⟨_, _, _, handler_body_throw jsonParse outcome body e h, Or.inr (Or.inl rfl)⟩
  | ok text =>
    cases ht : toBoolean text with
    | false => exact ⟨_, _, _, handler_invalid jsonParse outcome body text h ht, Or.inl rfl⟩
    | true =>
      obtain ⟨r, calls, logs, hrun, hshape⟩ :=
        handler_valid_total jsonParse outcome body text h ht
      exact ⟨r, calls, logs, hrun, Or.inr hshape⟩

/-- A request that passes validation and whose prompt is built issues exactly one
provider call, with that prompt, however the provider and the reply turn out. -/
theorem handler_calls (jsonParse : String → Except JsError JVal) (outcome : ProviderOutcome)
    (body text context : JVal) (content : String)
    (h : getProp body "text" = .ok text) (hc : getProp body "context" = .ok context)
    (ht : toBoolean text = true) (hu : userContent text context = .ok content) :
    (explainHandler jsonParse outcome body).run.calls = [.create (chatRequest content)] := by
  cases outcome with
  | rejected e =>
    rw [Handler.run, handler_rejected jsonParse body text context content e h hc ht hu]
  | resolved completion =>
    rw [Handler.run, handler_resolved jsonParse body text context completion content h hc ht hu]
    cases hr : replyContent completion with
    | error e =>
      rw [Handler.lift_error_bind,
        tryCatch_error (lift (.error e)) catchBlock _ _ e rfl, catchBlock_apply]
    | ok response =>
      rw [Handler.lift_ok_bind]
      rcases interpret_total text (parseReply jsonParse text response)
        ⟨[.create (chatRequest content)], [], []⟩ with ⟨r, hr1, _⟩ | ⟨e, he⟩
      · rw [tryCatch_ok _ _ _ _ _ hr1]
      · rw [tryCatch_error _ _ _ _ _ he, catchBlock_apply]

end Server

/-! ## Runs of the handler of `src/ask_ayo_v3_backend/server.js` -/

namespace FetchServer

/-- The effects of the `catch` block after effects `s`. -/
theorem fetchCatchBlock_apply (e : JsError) (s : Effects) :
    catchBlock e s = (.ok (), { s with
      logs := s.logs ++ [[.text "Error:", .error e]]
      sent := s.sent ++ [⟨500, failureBody "Internal server error"⟩] }) := by
  simp [catchBlock, Handler.bind_apply, console, send, failureBody]

/-- Reading `req.body` throws: the catch block answers. -/
theorem fetchHandler_body_throw (toLowerCase : String → String) (apiKey : Option String)
    (outcome : FetchOutcome) (body : JVal) (e : JsError)
    (h : getProp body "text" = .error e) :
    explainHandler toLowerCase apiKey outcome body ⟨[], [], []⟩
      = (.ok (), ⟨[], [[.text "Error:", .error e]],
          [⟨500, failureBody "Internal server error"⟩]⟩) := by
  simp [explainHandler, explainBody, Handler.tryCatch, h, Handler.lift_error_bind, lift,
    fetchCatchBlock_apply]

/-- A falsy `text`: the validation response, and nothing else. -/
theorem fetchHandler_invalid (toLowerCase : String → String) (apiKey : Option String)
    (outcome : FetchOutcome) (body text : JVal)
    (h : getProp body "text" = .ok text) (ht : toBoolean text = false) :
    explainHandler toLowerCase apiKey outcome body ⟨[], [], []⟩
      = (.ok (), ⟨[], [], [⟨400, validationBody⟩]⟩) := by
  obtain ⟨c, hc⟩ := getProp_ok_of_ok h "context"
  simp [explainHandler, explainBody, Handler.tryCatch, h, hc, ht, Handler.lift_ok_bind, send,
    validationBody]

/-- The `try` block on a request that passes validation. -/
theorem fetchBody_valid (toLowerCase : String → String) (apiKey : Option String)
    (outcome : FetchOutcome) (body text context : JVal)
    (h : getProp body "text" = .ok text) (hc : getProp body "context" = .ok context)
    (ht : toBoolean text = true) :
    explainBody toLowerCase apiKey outcome body
      = (importFetch outcome >>= fun _ =>
          lift (userContent text context) >>= fun content =>
            fetch outcome (fetchCall apiKey content) >>= fun x =>
              respond toLowerCase text x.1 x.2) := by
  simp [explainBody, h, hc, ht, Handler.lift_ok_bind]

/-- The dynamic import rejects: no call, the catch block answers. -/
theorem handler_importRejected (toLowerCase : String → String) (apiKey : Option String)
    (body text : JVal) (e : JsError)
    (h : getProp body "text" = .ok text) (ht : toBoolean text = true) :
    explainHandler toLowerCase apiKey (.importRejected e) body ⟨[], [], []⟩
      = (.ok (), ⟨[], [[.text "Error:", .error e]],
          [⟨500, failureBody "Internal server error"⟩]⟩) := by
  obtain ⟨c, hc⟩ := getProp_ok_of_ok h "context"
  rw [explainHandler, fetchBody_valid toLowerCase apiKey _ body text c h hc ht]
  simp [Handler.tryCatch, importFetch, Handler.lift_error_bind, lift, fetchCatchBlock_apply]

/-- The prompt cannot be built: no call, the catch block answers. -/
theorem fetchHandler_prompt_throw (toLowerCase : String → String) (apiKey : Option String)
    (outcome : FetchOutcome) (body text context : JVal) (e : JsError)
    (h : getProp body "text" = .ok text) (hc : getProp body "context" = .ok context)
    (ht : toBoolean text = true) (hu : userContent text context = .error e)
    (ho : ∀ e2, outcome ≠ .importRejected e2) :
    explainHandler toLowerCase apiKey outcome body ⟨[], [], []⟩
      = (.ok (), ⟨[], [[.text "Error:", .error e]],
          [⟨500, failureBody "Internal server error"⟩]⟩) := by
  rw [explainHandler, fetchBody_valid toLowerCase apiKey _ body text context h hc ht]
  cases outcome with
  | importRejected e2 => exact absurd rfl (ho e2)
  | rejected e2 =>
    simp [Handler.tryCatch, importFetch, Handler.bind_apply, hu, lift, fetchCatchBlock_apply]
  | responded ok json =>
    simp [Handler.tryCatch, importFetch, Handler.bind_apply, hu, lift, fetchCatchBlock_apply]

/-- The `fetch` call rejects: one call, the catch block answers. -/
theorem fetchHandler_rejected (toLowerCase : String → String) (apiKey : Option String)
    (body text context : JVal) (content : String) (e : JsError)
    (h : getProp body "text" = .ok text) (hc : getProp body "context" = .ok context)
    (ht : toBoolean text = true) (hu : userContent text context = .ok content) :
    explainHandler toLowerCase apiKey (.rejected e) body ⟨[], [], []⟩
      = (.ok (), ⟨[fetchCall apiKey content], [[.text "Error:", .error e]],
          [⟨500, failureBody "Internal server error"⟩]⟩) := by
  rw [explainHandler, fetchBody_valid toLowerCase apiKey _ body text context h hc ht]
  simp [Handler.tryCatch, importFetch, Handler.bind_apply, hu, lift, fetch, fetchCatchBlock_apply]

/-- A response arrives: one call, then the response is handled under the `try`. -/
theorem handler_responded (toLowerCase : String → String) (apiKey : Option String)
    (body text context : JVal) (content : String) (ok : Bool) (json : Except JsError JVal)
    (h : getProp body "text" = .ok text) (hc : getProp body "context" = .ok context)
    (ht : toBoolean text = true) (hu : userContent text context = .ok content) :
    explainHandler toLowerCase apiKey (.responded ok json) body ⟨[], [], []⟩
      = Handler.tryCatch (respond toLowerCase text ok json) catchBlock
          ⟨[fetchCall apiKey content], [], []⟩ := by
  rw [explainHandler, fetchBody_valid toLowerCase apiKey _ body text context h hc ht]
  simp [Handler.tryCatch, importFetch, Handler.bind_apply, hu, lift, fetch]

/-- `trim` removes a run of white space at the start and one at the end, and what
is left neither starts nor ends with white space. -/
theorem trim_spec (s : String) :
    ∃ pre suf : List Char, s.data = pre ++ (trim s).data ++ suf
      ∧ (∀ c ∈ pre, isWhiteSpace c = true) ∧ (∀ c ∈ suf, isWhiteSpace c = true)
      ∧ (∀ c, (trim s).data.head? = some c → isWhiteSpace c = false)
      ∧ (∀ c, (trim s).data.getLast? = some c → isWhiteSpace c = false) := by
  have hb : (trim s).data
      = ((s.data.dropWhile isWhiteSpace).reverse.dropWhile isWhiteSpace).reverse := rfl
  have ha : s.data.dropWhile isWhiteSpace
      = ((s.data.dropWhile isWhiteSpace).reverse.dropWhile isWhiteSpace).reverse
        ++ ((s.data.dropWhile isWhiteSpace).reverse.takeWhile isWhiteSpace).reverse := by
    rw [← List.reverse_append, List.takeWhile_append_dropWhile, List.reverse_reverse]
  refine ⟨s.data.takeWhile isWhiteSpace,
    ((s.data.dropWhile isWhiteSpace).reverse.takeWhile isWhiteSpace).reverse, ?_, ?_, ?_, ?_, ?_⟩
  · rw [hb, List.append_assoc, ← ha, List.takeWhile_append_dropWhile]
  · intro c hc
    exact List.mem_takeWhile_imp hc
  · intro c hc
    exact List.mem_takeWhile_imp (List.mem_reverse.mp hc)
  · intro c hc
    have h1 := List.head?_dropWhile_not isWhiteSpace s.data
    rw [ha, ← hb] at h1
    cases hd : (trim s).data with
    | nil => rw [hd] at hc; simp at hc
    | cons x xs =>
      rw [hd] at hc h1
      simp at hc h1
      rw [← hc]; exact h1
  · intro c hc
    have h1 := List.head?_dropWhile_not isWhiteSpace (s.data.dropWhile isWhiteSpace).reverse
    rw [hb, List.getLast?_reverse] at hc
    rw [hc] at h1
    simpa using h1

/-- `includes` holds exactly when the pattern occurs as a contiguous run. -/
theorem includes_iff (s pat : String) :
    includes s pat = true ↔ ∃ pre suf : String, s = pre ++ pat ++ suf := by
  simp only [includes, List.any_eq_true, List.mem_tails, List.isPrefixOf_iff_prefix]
  constructor
  · rintro ⟨t, ⟨pre, hpre⟩, ⟨suf, hsuf⟩⟩
    refine ⟨⟨pre⟩, ⟨suf⟩, ?_⟩
    apply String.ext
    simp [String.data_append, ← hpre, ← hsuf]
  · rintro ⟨pre, suf, h⟩
    refine ⟨pat.data ++ suf.data, ⟨pre.data, ?_⟩, ⟨suf.data, rfl⟩⟩
    simp [h, String.data_append]

/-- A prompt that is built means the text prints. -/
theorem toStr_text_of_userContent (text context : JVal) (content : String)
    (hu : userContent text context = .ok content) : ∃ shown, toStr text = .ok shown := by
  cases ht : toStr text with
  | ok shown => exact ⟨shown, rfl⟩
  | error e =>
    unfold userContent at hu
    split at hu <;> simp [ht, Bind.bind, Except.bind] at hu

/-- A non-success status whose body is read: the failure envelope of line 80. -/
theorem respond_notOk (toLowerCase : String → String) (text v : JVal) (s : Effects) :
    respond toLowerCase text false (.ok v) s
      = (.ok (), { s with
          logs := s.logs ++ [[.text "OpenAI API error:", .value v]]
          sent := s.sent ++ [⟨500, failureBody "Failed to get explanation from AI"⟩] }) := by
  simp only [respond, Handler.lift_ok_bind, Bool.not_false, if_true]
  simp [Handler.bind_apply, console, send, failureBody]

/-- Reading the response body throws, whatever the status. -/
theorem respond_json_throw (toLowerCase : String → String) (text : JVal) (ok : Bool)
    (e : JsError) (s : Effects) :
    respond toLowerCase text ok (.error e) s = (.error e, s) := by
  cases ok <;> simp [respond, Handler.lift_error_bind, lift]

/-- A success status whose reply content cannot be read or trimmed. -/
theorem respond_reply_throw (toLowerCase : String → String) (text data : JVal) (e : JsError)
    (h : (replyContent data >>= trimCall) = .error e) (s : Effects) :
    respond toLowerCase text true (.ok data) s = (.error e, s) := by
  cases hr : replyContent data with
  | error e2 =>
    simp [hr, Bind.bind, Except.bind] at h
    simp [respond, Handler.lift_ok_bind, Handler.lift_error_bind, hr, lift, h]
  | ok reply =>
    simp [hr, Bind.bind, Except.bind] at h
    simp [respond, Handler.lift_ok_bind, Handler.lift_error_bind, hr, lift, h]

/-- A success status with a string reply that mentions the phrase. -/
theorem respond_nonFinancial (toLowerCase : String → String) (text data : JVal)
    (reply : String) (hr : replyContent data = .ok (str reply))
    (hi : includes (toLowerCase (trim reply)) "not financial jargon" = true) (s : Effects) :
    respond toLowerCase text true (.ok data) s
      = (.ok (), { s with sent := s.sent ++
          [⟨200, nonFinancialBody (str "This doesn\x27t appear to be financial jargon.")⟩] }) := by
  simp [respond, Handler.lift_ok_bind, hr, trimCall, hi, send, nonFinancialBody]

/-- A success status with a string reply that does not mention the phrase. -/
theorem respond_financial (toLowerCase : String → String) (text data : JVal)
    (reply shown : String) (hr : replyContent data = .ok (str reply))
    (hi : includes (toLowerCase (trim reply)) "not financial jargon" = false)
    (hs : toStr text = .ok shown) (s : Effects) :
    respond toLowerCase text true (.ok data) s
      = (.ok (), { s with
          logs := s.logs ++ [[.text ("Explained: \"" ++ shown ++ "\"")]]
          sent := s.sent ++ [⟨200, financialBody text (trim reply)⟩] }) := by
  have ht : trimCall (str reply) = .ok (trim reply) := rfl
  simp only [respond, Handler.lift_ok_bind, hr, ht, hi, hs, Bool.not_true, Bool.false_eq_true,
    if_false]
  simp [Handler.bind_apply, console, send, financialBody]

/-- The content `.trim()` succeeds only on a string. -/
theorem trimCall_ok (content : JVal) (x : String) (h : trimCall content = .ok x) :
    ∃ reply, content = str reply ∧ x = trim reply := by
  cases content <;> simp [trimCall] at h
  exact ⟨_, rfl, h.symm⟩

/-- What follows the `fetch` call sends one response, a 500 failure envelope or a
200 variant, or throws before sending anything; it issues no call. -/
theorem respond_total (toLowerCase : String → String) (text : JVal) (shown : String)
    (hs : toStr text = .ok shown) (ok : Bool) (json : Except JsError JVal) (s : Effects) :
    (∃ r logs, respond toLowerCase text ok json s
          = (.ok (), ⟨s.calls, logs, s.sent ++ [r]⟩)
        ∧ (r = ⟨500, failureBody "Failed to get explanation from AI"⟩
            ∨ r.isFinancialVariant ∨ r.isNonFinancialVariant))
    ∨ (∃ e, respond toLowerCase text ok json s = (.error e, s)) := by
  cases json with
  | error e => exact Or.inr ⟨e, respond_json_throw toLowerCase text ok e s⟩
  | ok data =>
    cases ok with
    | false => exact Or.inl ⟨_, _, respond_notOk toLowerCase text data s, Or.inl rfl⟩
    | true =>
      cases hx : (replyContent data >>= trimCall) with
      | error e => exact Or.inr ⟨e, respond_reply_throw toLowerCase text data e hx s⟩
      | ok x =>
        cases hr : replyContent data with
        | error e2 => simp [hr, Bind.bind, Except.bind] at hx
        | ok content =>
          simp [hr, Bind.bind, Except.bind] at hx
          obtain ⟨reply, hc, _⟩ := trimCall_ok content x hx
          subst hc
          cases hi : includes (toLowerCase (trim reply)) "not financial jargon" with
          | true =>
            exact Or.inl ⟨_, _, respond_nonFinancial toLowerCase text data reply hr hi s,
              Or.inr (Or.inr ⟨rfl, _, rfl⟩)⟩
          | false =>
            exact Or.inl ⟨_, _, respond_financial toLowerCase text data reply shown hr hi hs s,
              Or.inr (Or.inl ⟨rfl, _, _, rfl⟩)⟩

/-- A request with a truthy text ends normally with exactly one response sent: a
500 failure envelope or a 200 variant. -/
theorem fetchHandler_valid_total (toLowerCase : String → String) (apiKey : Option String)
    (outcome : FetchOutcome) (body text : JVal)
    (h : getProp body "text" = .ok text) (ht : toBoolean text = true) :
    ∃ r calls logs, explainHandler toLowerCase apiKey outcome body ⟨[], [], []⟩
        = (.ok (), ⟨calls, logs, [r]⟩)
      ∧ (r = ⟨500, failureBody "Internal server error"⟩
          ∨ r = ⟨500, failureBody "Failed to get explanation from AI"⟩
          ∨ r.isFinancialVariant ∨ r.isNonFinancialVariant) := by
  obtain ⟨context, hc⟩ := getProp_ok_of_ok h "context"
  cases outcome with
  | importRejected e =>
    exact ⟨_, _, _, handler_importRejected toLowerCase apiKey body text e h ht, Or.inl rfl⟩
  | rejected e =>
    cases hu : userContent text context with
    | error e2 =>
      exact ⟨_, _, _, fetchHandler_prompt_throw toLowerCase apiKey _ body text context e2 h hc ht
        hu (by intro e3 h3; cases h3), Or.inl rfl⟩
    | ok content =>
      exact ⟨_, _, _, fetchHandler_rejected toLowerCase apiKey body text context content e h hc
        ht hu, Or.inl rfl⟩
  | responded ok json =>
    cases hu : userContent text context with
    | error e2 =>
      exact ⟨_, _, _, fetchHandler_prompt_throw toLowerCase apiKey _ body text context e2 h hc ht
        hu (by intro e3 h3; cases h3), Or.inl rfl⟩
    | ok content =>
      obtain ⟨shown, hs⟩ := toStr_text_of_userContent text context content hu
      rw [handler_responded toLowerCase apiKey body text context content ok json h hc ht hu]
      rcases respond_total toLowerCase text shown hs ok json
        ⟨[fetchCall apiKey content], [], []⟩ with ⟨r, logs, hr1, hr2⟩ | ⟨e, he⟩
      · rw [Handler.tryCatch_ok _ _ _ _ _ hr1]
        exact ⟨r, _, _, rfl, Or.inr hr2⟩
      · rw [Handler.tryCatch_error _ _ _ _ _ he, fetchCatchBlock_apply]
        exact ⟨_, _, _, rfl, Or.inl rfl⟩

end FetchServer

/-! ## The claims -/

/-- Claim C1 as stated fails: text `dividend`, the provider succeeds with the reply
text `null`, on which `JSON.parse` returns `null`; reading `parsed.isFinancial`
throws and the handler answers with the 500 failure envelope. The same happens for
a reply marked financial whose definition is an object with an own `toString`
property, which the template literal cannot print. -/
theorem C1_counterexample :
    (Server.explainHandler (fun _ => .ok null) (.resolved (completionWith (str "null")))
        (object [("text", str "dividend")])).run.sent
      = [⟨500, failureBody "Failed to generate explanation"⟩]
    ∧ (Server.explainHandler
        (fun _ => .ok (object [("isFinancial", bool true),
          ("definition", object [("toString", num ⟨false, "1"⟩)])]))
        (.resolved (completionWith
          (str "\x7b\"isFinancial\":true,\"definition\":\x7b\"toString\":1\x7d\x7d")))
        (object [("text", str "dividend")])).run.sent
      = [⟨500, failureBody "Failed to generate explanation"⟩] :=
  ⟨rfl, rfl⟩

/-- Claim C1, amended: for a non-empty text, a context with which the prompt is
built and a reply text of a provider call that succeeded, if `JSON.parse` does not
return `null` on the reply (it throws, or returns an object, an array, a number, a
string or a boolean; it never returns `undefined`) and, where the parsed reply is
marked financial, its definition and realTalk convert to strings, then the handler
of `src/server.js` sends exactly one response, with status 200, and it is the
financial or the non-financial variant, not the 500 failure envelope. -/
theorem C1_success_variants (jsonParse : String → Except JsError JVal)
    (body context completion : JVal) (t content reply : String)
    (h : getProp body "text" = .ok (str t)) (ht : t ≠ "")
    (hc : getProp body "context" = .ok context)
    (hu : Server.userContent (str t) context = .ok content)
    (hr : Server.replyContent completion = .ok (str reply))
    (hnull : jsonParse reply ≠ .ok null) (hundef : jsonParse reply ≠ .ok undefined)
    (hrender : ∀ v f d rt, jsonParse reply = .ok v → getProp v "isFinancial" = .ok f →
      toBoolean f = true → getProp v "definition" = .ok d → getProp v "realTalk" = .ok rt →
      ∃ e, Server.buildExplanation d rt = .ok e) :
    ∃ r, (Server.explainHandler jsonParse (.resolved completion) body).run.sent = [r]
      ∧ r.status = 200 ∧ (r.isFinancialVariant ∨ r.isNonFinancialVariant)
      ∧ ¬ r.isFailure 500 := by
  have htt : toBoolean (str t) = true := by simp [toBoolean, ht]
  have key : ∃ r, (Server.explainHandler jsonParse (.resolved completion) body).run.sent = [r]
      ∧ (r.isFinancialVariant ∨ r.isNonFinancialVariant) := by
    rw [Handler.run, Server.handler_reply jsonParse body (str t) context completion (str reply)
      content h hc htt hu hr]
    cases hp : jsonParse reply with
    | error e =>
      rw [Server.parseReply_error jsonParse (str t) reply e hp,
        Handler.tryCatch_ok _ _ _ _ _ (Server.interpret_fallback (str t) reply htt _)]
      exact ⟨_, rfl, Or.inl ⟨rfl, _, _, rfl⟩⟩
    | ok v =>
      have hv1 : v ≠ null := fun hv => hnull (by rw [hp, hv])
      have hv2 : v ≠ undefined := fun hv => hundef (by rw [hp, hv])
      obtain ⟨f, hf⟩ := JVal.getProp_of_not_nullish v hv1 hv2 "isFinancial"
      obtain ⟨d, hd⟩ := JVal.getProp_of_not_nullish v hv1 hv2 "definition"
      obtain ⟨rt, hrt⟩ := JVal.getProp_of_not_nullish v hv1 hv2 "realTalk"
      obtain ⟨tm, htm⟩ := JVal.getProp_of_not_nullish v hv1 hv2 "term"
      obtain ⟨m, hm⟩ := JVal.getProp_of_not_nullish v hv1 hv2 "message"
      rw [Server.parseReply_ok jsonParse (str t) reply v hp]
      cases hb : toBoolean f with
      | true =>
        obtain ⟨e, he⟩ := hrender v f d rt hp hf hb hd hrt
        rw [Handler.tryCatch_ok _ _ _ _ _
          (Server.interpret_financial (str t) v f d rt tm e hf hb hd hrt htm he _)]
        exact ⟨_, rfl, Or.inl ⟨rfl, _, _, rfl⟩⟩
      | false =>
        rw [Handler.tryCatch_ok _ _ _ _ _ (Server.interpret_nonFinancial (str t) v f m hf hb hm _)]
        exact ⟨_, rfl, Or.inr ⟨rfl, _, rfl⟩⟩
  obtain ⟨r, hr1, hr2⟩ := key
  refine ⟨r, hr1, ?_, hr2, ?_⟩
  · rcases hr2 with h2 | h2 <;> exact h2.1
  · intro hfail
    have h500 := hfail.1
    rcases hr2 with h2 | h2 <;> rw [h2.1] at h500 <;> exact absurd h500 (by decide)

/-- The amended claim C1 at two concrete inputs, both with text `dividend`: the
reply text `42`, on which `JSON.parse` returns the number 42, and the reply of the
dividend scenario, on which it returns `dividendParsed`. -/
theorem C1_success_variants_witness :
    (∃ r, (Server.explainHandler (fun _ => .ok (num ⟨false, "42"⟩))
        (.resolved (completionWith (str "42"))) (object [("text", str "dividend")])).run.sent = [r]
      ∧ r.status = 200 ∧ (r.isFinancialVariant ∨ r.isNonFinancialVariant)
      ∧ ¬ r.isFailure 500)
    ∧ (∃ r, (Server.explainHandler (fun _ => .ok dividendParsed)
        (.resolved (completionWith (str dividendReply)))
        (object [("text", str "dividend")])).run.sent = [r]
      ∧ r.status = 200 ∧ (r.isFinancialVariant ∨ r.isNonFinancialVariant)
      ∧ ¬ r.isFailure 500) :=
  ⟨C1_success_variants (fun _ => .ok (num ⟨false, "42"⟩)) (object [("text", str "dividend")])
    undefined (completionWith (str "42")) "dividend" _ "42" rfl (by decide) rfl rfl rfl
    (by simp) (by simp)
    (by
      intro v f d rt hv hf hb
      simp only [Except.ok.injEq] at hv
      subst hv
      simp [getProp] at hf
      subst hf
      simp [toBoolean] at hb),
   C1_success_variants (fun _ => .ok dividendParsed) (object [("text", str "dividend")])
    undefined (completionWith (str dividendReply)) "dividend" _ dividendReply rfl (by decide)
    rfl rfl rfl (by simp [dividendParsed, object]) (by simp [dividendParsed, object])
    (by
      intro v f d rt hv hf hb hd hrt
      simp only [Except.ok.injEq] at hv
      subst hv
      have h1 : getProp dividendParsed "definition"
          = .ok (str "A portion of profit paid to shareholders.") := rfl
      have h2 : getProp dividendParsed "realTalk"
          = .ok (str "Like a thank-you check from the company for owning a piece of it.") := rfl
      rw [h1] at hd
      rw [h2] at hrt
      simp only [Except.ok.injEq] at hd hrt
      subst hd
      subst hrt
      exact ⟨_, rfl⟩)⟩

/-- Claim C2 as stated fails: text `dividend`, reply text `hello` (on which
`JSON.parse` throws): the explanation sent is `**hello**`, not the raw reply. -/
theorem C2_counterexample :
    (Server.explainHandler (fun _ => .error syntaxError)
        (.resolved (completionWith (str "hello")))
        (object [("text", str "dividend")])).run.sent.map (fun r => getProp r.body "explanation")
      = [.ok (str "**hello**")]
    ∧ "**hello**" ≠ "hello" := by
  constructor
  · rfl
  · decide

/-- Claim C2, amended: for a non-empty text and a reply text on which `JSON.parse`
throws, the handler of `src/server.js` answers 200 with the financial variant whose
term is the input text and whose explanation is the raw reply text between the two
bold markers, with no translation segment. -/
theorem C2_fallback_wraps_raw_reply (jsonParse : String → Except JsError JVal)
    (body context completion : JVal) (t content reply : String) (e : JsError)
    (h : getProp body "text" = .ok (str t)) (ht : t ≠ "")
    (hc : getProp body "context" = .ok context)
    (hu : Server.userContent (str t) context = .ok content)
    (hr : Server.replyContent completion = .ok (str reply))
    (hp : jsonParse reply = .error e) :
    (Server.explainHandler jsonParse (.resolved completion) body).run.sent
      = [⟨200, financialBody (str t) ("**" ++ reply ++ "**")⟩] :=
  Server.handler_fallback jsonParse body context completion t content reply e h ht hc hu hr hp

/-- The amended claim C2 at a concrete input: text `dividend`, reply text `hello`,
on which `JSON.parse` throws. -/
theorem C2_fallback_wraps_raw_reply_witness :
    (Server.explainHandler (fun _ => .error syntaxError)
        (.resolved (completionWith (str "hello")))
        (object [("text", str "dividend")])).run.sent
      = [⟨200, financialBody (str "dividend") ("**" ++ "hello" ++ "**")⟩] :=
  C2_fallback_wraps_raw_reply (fun _ => .error syntaxError) (object [("text", str "dividend")])
    undefined (completionWith (str "hello")) "dividend" _ "hello" syntaxError rfl (by decide)
    rfl rfl rfl rfl

/-- Claim C3: in both variants the `/api/explain` handler answers 400 with
`{success:false, error:"Text is required"}` when the text of the request is
missing or is the empty string, and then it issues no provider call (and sends
and logs nothing else); for a non-empty string text no response of the handler is
that validation error. -/
theorem C3_validation (jsonParse : String → Except JsError JVal)
    (outcome : Server.ProviderOutcome) (toLowerCase : String → String)
    (apiKey : Option String) (fetchOutcome : FetchServer.FetchOutcome) (body : JVal) :
    ((getProp body "text" = .ok undefined ∨ getProp body "text" = .ok (str "")) →
      (Server.explainHandler jsonParse outcome body).run
          = ⟨[], [], [⟨400, object [("success", bool false),
              ("error", str "Text is required")]⟩]⟩
        ∧ (FetchServer.explainHandler toLowerCase apiKey fetchOutcome body).run
          = ⟨[], [], [⟨400, object [("success", bool false),
              ("error", str "Text is required")]⟩]⟩)
    ∧ (∀ t, getProp body "text" = .ok (str t) → t ≠ "" →
      (∀ r ∈ (Server.explainHandler jsonParse outcome body).run.sent,
          r.status ≠ 400 ∧ getProp r.body "error" ≠ .ok (str "Text is required"))
        ∧ (∀ r ∈ (FetchServer.explainHandler toLowerCase apiKey fetchOutcome body).run.sent,
          r.status ≠ 400 ∧ getProp r.body "error" ≠ .ok (str "Text is required"))) := by
  constructor
  · intro h
    have key : ∃ text, getProp body "text" = .ok text ∧ toBoolean text = false := by
      rcases h with h | h
      · exact ⟨_, h, rfl⟩
      · exact ⟨_, h, rfl⟩
    obtain ⟨text, h1, h2⟩ := key
    constructor
    · rw [Handler.run, Server.handler_invalid jsonParse outcome body text h1 h2]
      rfl
    · rw [Handler.run,
        FetchServer.fetchHandler_invalid toLowerCase apiKey fetchOutcome body text h1 h2]
      rfl
  · intro t h ht
    have htt : toBoolean (str t) = true := by simp [toBoolean, ht]
    constructor
    · obtain ⟨r, calls, logs, hrun, hshape⟩ :=
        Server.handler_valid_total jsonParse outcome body (str t) h htt
      intro r2 hr2
      rw [Handler.run, hrun] at hr2
      simp only [List.mem_singleton] at hr2
      subst hr2
      rcases hshape with h5 | h2 | h2
      · exact Response.not_validation_of_shape _ (Or.inl ⟨_, by decide, h5⟩)
      · exact Response.not_validation_of_shape _ (Or.inr (Or.inl h2))
      · exact Response.not_validation_of_shape _ (Or.inr (Or.inr h2))
    · obtain ⟨r, calls, logs, hrun, hshape⟩ :=
        FetchServer.fetchHandler_valid_total toLowerCase apiKey fetchOutcome body (str t) h htt
      intro r2 hr2
      rw [Handler.run, hrun] at hr2
      simp only [List.mem_singleton] at hr2
      subst hr2
      rcases hshape with h5 | h5 | h2 | h2
      · exact Response.not_validation_of_shape _ (Or.inl ⟨_, by decide, h5⟩)
      · exact Response.not_validation_of_shape _ (Or.inl ⟨_, by decide, h5⟩)
      · exact Response.not_validation_of_shape _ (Or.inr (Or.inl h2))
      · exact Response.not_validation_of_shape _ (Or.inr (Or.inr h2))

/-- Claim C3 at concrete inputs: the body `{"text": ""}` with a provider that would
have answered, and the body `{"text": "dividend"}` with a provider that fails. -/
theorem C3_validation_witness :
    ((Server.explainHandler (fun _ => .ok dividendParsed)
        (.resolved (completionWith (str dividendReply))) (object [("text", str "")])).run
      = ⟨[], [], [⟨400, object [("success", bool false), ("error", str "Text is required")]⟩]⟩
    ∧ (FetchServer.explainHandler asciiLower (some "sk-test")
        (.responded true (.ok (completionWith (str "A payout.")))) (object [("text", str "")])).run
      = ⟨[], [], [⟨400, object [("success", bool false),
          ("error", str "Text is required")]⟩]⟩)
    ∧ ((∀ r ∈ (Server.explainHandler (fun _ => .error syntaxError)
          (.rejected ⟨"Error", "timeout"⟩) (object [("text", str "dividend")])).run.sent,
        r.status ≠ 400 ∧ getProp r.body "error" ≠ .ok (str "Text is required"))
      ∧ (∀ r ∈ (FetchServer.explainHandler asciiLower none
          (.rejected ⟨"Error", "timeout"⟩) (object [("text", str "dividend")])).run.sent,
        r.status ≠ 400 ∧ getProp r.body "error" ≠ .ok (str "Text is required"))) :=
  ⟨(C3_validation (fun _ => .ok dividendParsed) (.resolved (completionWith (str dividendReply)))
      asciiLower (some "sk-test") (.responded true (.ok (completionWith (str "A payout."))))
      (object [("text", str "")])).1 (Or.inr rfl),
   (C3_validation (fun _ => .error syntaxError) (.rejected ⟨"Error", "timeout"⟩)
      asciiLower none (.rejected ⟨"Error", "timeout"⟩)
      (object [("text", str "dividend")])).2 "dividend" rfl (by decide)⟩

/-- Claim C4: for a reply that parses to an object marked financial (its
`isFinancial` is truthy) whose definition prints as `ds`: (1) when realTalk is a
non-empty string `r`, the explanation sent by the handler of `src/server.js` is the
definition segment `**ds**`, a blank line, and the labelled segment
`... **Real Talk:** r`; (2) when realTalk is absent, null or empty, it is the
definition segment alone; (3) whatever realTalk is, every explanation sent starts
with the definition segment; (4) a second run, on any request and any reply marked
financial with the same definition and the same realTalk, sends the same
explanation: the explanation is a function of (definition, realTalk). -/
theorem C4_composition_law (jsonParse : String → Except JsError JVal)
    (body context completion f d rt : JVal) (kvs : JFields) (t content reply ds : String)
    (h : getProp body "text" = .ok (str t)) (ht : t ≠ "")
    (hc : getProp body "context" = .ok context)
    (hu : Server.userContent (str t) context = .ok content)
    (hr : Server.replyContent completion = .ok (str reply))
    (hp : jsonParse reply = .ok (obj kvs))
    (hf : getProp (obj kvs) "isFinancial" = .ok f) (hb : toBoolean f = true)
    (hd : getProp (obj kvs) "definition" = .ok d) (hds : toStr d = .ok ds)
    (hrt : getProp (obj kvs) "realTalk" = .ok rt) :
    (∀ r, rt = str r → r ≠ "" → ∃ term,
        (Server.explainHandler jsonParse (.resolved completion) body).run.sent
          = [⟨200, object [("success", bool true), ("isFinancial", bool true), ("term", term),
              ("explanation", str ("**" ++ ds ++ "**" ++
                "\n\n\u00f0\u0178\u2019\u00ac **Real Talk:** " ++ r))]⟩])
    ∧ (rt = undefined ∨ rt = null ∨ rt = str "" → ∃ term,
        (Server.explainHandler jsonParse (.resolved completion) body).run.sent
          = [⟨200, object [("success", bool true), ("isFinancial", bool true), ("term", term),
              ("explanation", str ("**" ++ ds ++ "**"))]⟩])
    ∧ (∀ r ∈ (Server.explainHandler jsonParse (.resolved completion) body).run.sent,
        ∀ ex, getProp r.body "explanation" = .ok (str ex) →
          ∃ rest, ex = "**" ++ ds ++ "**" ++ rest)
    ∧ (∀ (jsonParse2 : String → Except JsError JVal) (body2 context2 completion2 f2 : JVal)
        (kvs2 : JFields) (t2 content2 reply2 : String),
        getProp body2 "text" = .ok (str t2) → t2 ≠ "" →
        getProp body2 "context" = .ok context2 →
        Server.userContent (str t2) context2 = .ok content2 →
        Server.replyContent completion2 = .ok (str reply2) →
        jsonParse2 reply2 = .ok (obj kvs2) →
        getProp (obj kvs2) "isFinancial" = .ok f2 → toBoolean f2 = true →
        getProp (obj kvs2) "definition" = .ok d → getProp (obj kvs2) "realTalk" = .ok rt →
        (Server.explainHandler jsonParse2 (.resolved completion2) body2).run.sent.map
            (fun r => getProp r.body "explanation")
          = (Server.explainHandler jsonParse (.resolved completion) body).run.sent.map
            (fun r => getProp r.body "explanation")) := by
  obtain ⟨tm, htm⟩ := getProp_ok_of_ok hf "term"
  have key : ∀ ex, Server.buildExplanation d rt = .ok ex →
      (Server.explainHandler jsonParse (.resolved completion) body).run.sent
        = [⟨200, object [("success", bool true), ("isFinancial", bool true),
            ("term", orElse tm (str t)), ("explanation", str ex)]⟩] := fun ex hex =>
    Server.handler_financial jsonParse body context completion (obj kvs) f d rt tm t
      content reply ex h ht hc hu hr hp hf hb hd hrt htm hex
  have hfield := Server.handler_financial_explanation jsonParse body context completion
    (obj kvs) f d rt t content reply h ht hc hu hr hp hf hb hd hrt
  refine ⟨fun r hr1 hr2 => ⟨_, key _ ?_⟩, fun hcase => ⟨_, key _ ?_⟩, ?_, ?_⟩
  · rw [hr1]
    exact Server.buildExplanation_realTalk d ds r hds hr2
  · exact Server.buildExplanation_plain d rt ds hds hcase
  · intro r hr1 ex hex
    have hmem : getProp r.body "explanation" ∈
        (Server.explainHandler jsonParse (.resolved completion) body).run.sent.map
          (fun r => getProp r.body "explanation") := List.mem_map_of_mem _ hr1
    cases hb2 : Server.buildExplanation d rt with
    | ok ex2 =>
      rw [hfield.1 ex2 hb2, List.mem_singleton, hex] at hmem
      simp only [Except.ok.injEq, JVal.str.injEq] at hmem
      rw [hmem]
      exact Server.buildExplanation_prefix d rt ds ex2 hds hb2
    | error e =>
      rw [hfield.2 e hb2, List.mem_singleton, hex] at hmem
      simp at hmem
  · intro jsonParse2 body2 context2 completion2 f2 kvs2 t2 content2 reply2 h2 ht2 hc2 hu2 hr2
      hp2 hf2 hb2 hd2 hrt2
    have hfield2 := Server.handler_financial_explanation jsonParse2 body2 context2 completion2
      (obj kvs2) f2 d rt t2 content2 reply2 h2 ht2 hc2 hu2 hr2 hp2 hf2 hb2 hd2 hrt2
    cases hbe : Server.buildExplanation d rt with
    | ok ex => rw [hfield.1 ex hbe, hfield2.1 ex hbe]
    | error e => rw [hfield.2 e hbe, hfield2.2 e hbe]

/-- The composition law at the dividend scenario: text `dividend`, no context, the
reply `dividendReply`, which `JSON.parse` turns into `dividendParsed`. -/
theorem C4_composition_law_witness :
    ∃ term,
      (Server.explainHandler (fun _ => .ok dividendParsed)
          (.resolved (completionWith (str dividendReply)))
          (object [("text", str "dividend")])).run.sent
        = [⟨200, object [("success", bool true), ("isFinancial", bool true), ("term", term),
            ("explanation", str ("**" ++ "A portion of profit paid to shareholders." ++ "**" ++
              "\n\n\u00f0\u0178\u2019\u00ac **Real Talk:** " ++
              "Like a thank-you check from the company for owning a piece of it."))]⟩] :=
  (C4_composition_law (fun _ => .ok dividendParsed) (object [("text", str "dividend")])
    undefined (completionWith (str dividendReply)) (bool true)
    (str "A portion of profit paid to shareholders.")
    (str "Like a thank-you check from the company for owning a piece of it.") _
    "dividend" _ dividendReply "A portion of profit paid to shareholders."
    rfl (by decide) rfl rfl rfl rfl rfl rfl rfl rfl rfl).1
    "Like a thank-you check from the company for owning a piece of it." rfl (by decide)

/-- Claim C5: for a non-empty text, when the provider call fails the handler
answers 500 with `{success:false, error: m}` for a fixed message `m`: in
`src/server.js` a rejected call gives `Failed to generate explanation`; in the
fetch-based variant a rejected import or a rejected `fetch` gives
`Internal server error`, a non-success status whose body is read gives
`Failed to get explanation from AI`, and a non-success status whose body cannot
be read gives `Internal server error`. Each line holds for every error value, so
two runs that differ only in the error send the same response. -/
theorem C5_provider_failure (jsonParse : String → Except JsError JVal)
    (toLowerCase : String → String) (apiKey : Option String) (body context : JVal)
    (t content1 content2 : String)
    (h : getProp body "text" = .ok (str t)) (ht : t ≠ "")
    (hc : getProp body "context" = .ok context)
    (hu1 : Server.userContent (str t) context = .ok content1)
    (hu2 : FetchServer.userContent (str t) context = .ok content2) :
    (∀ e, (Server.explainHandler jsonParse (.rejected e) body).run.sent
        = [⟨500, object [("success", bool false),
            ("error", str "Failed to generate explanation")]⟩])
    ∧ (∀ e, (FetchServer.explainHandler toLowerCase apiKey (.importRejected e) body).run.sent
        = [⟨500, object [("success", bool false), ("error", str "Internal server error")]⟩])
    ∧ (∀ e, (FetchServer.explainHandler toLowerCase apiKey (.rejected e) body).run.sent
        = [⟨500, object [("success", bool false), ("error", str "Internal server error")]⟩])
    ∧ (∀ v, (FetchServer.explainHandler toLowerCase apiKey (.responded false (.ok v))
          body).run.sent
        = [⟨500, object [("success", bool false),
            ("error", str "Failed to get explanation from AI")]⟩])
    ∧ (∀ e, (FetchServer.explainHandler toLowerCase apiKey (.responded false (.error e))
          body).run.sent
        = [⟨500, object [("success", bool false), ("error", str "Internal server error")]⟩]) := by
  have htt : toBoolean (str t) = true := by simp [toBoolean, ht]
  refine ⟨fun e => ?_, fun e => ?_, fun e => ?_, fun v => ?_, fun e => ?_⟩
  · rw [Handler.run, Server.handler_rejected jsonParse body (str t) context content1 e h hc htt
      hu1]
    rfl
  · rw [Handler.run, FetchServer.handler_importRejected toLowerCase apiKey body (str t) e h htt]
    rfl
  · rw [Handler.run, FetchServer.fetchHandler_rejected toLowerCase apiKey body (str t) context
      content2 e h hc htt hu2]
    rfl
  · rw [Handler.run, FetchServer.handler_responded toLowerCase apiKey body (str t) context
      content2 false (.ok v) h hc htt hu2,
      Handler.tryCatch_ok _ _ _ _ _ (FetchServer.respond_notOk toLowerCase (str t) v _)]
    rfl
  · rw [Handler.run, FetchServer.handler_responded toLowerCase apiKey body (str t) context
      content2 false (.error e) h hc htt hu2,
      Handler.tryCatch_error _ _ _ _ _ (FetchServer.respond_json_throw toLowerCase (str t) false e _),
      FetchServer.fetchCatchBlock_apply]
    rfl

/-- Claim C5 at concrete inputs: text `dividend`, a provider call rejected with a
timeout, and a 401 response whose body is `{"error":"invalid key"}`. -/
theorem C5_provider_failure_witness :
    (Server.explainHandler (fun _ => .error syntaxError) (.rejected ⟨"Error", "timeout"⟩)
        (object [("text", str "dividend")])).run.sent
      = [⟨500, object [("success", bool false),
          ("error", str "Failed to generate explanation")]⟩]
    ∧ (FetchServer.explainHandler asciiLower none (.rejected ⟨"Error", "timeout"⟩)
        (object [("text", str "dividend")])).run.sent
      = [⟨500, object [("success", bool false), ("error", str "Internal server error")]⟩]
    ∧ (FetchServer.explainHandler asciiLower none
        (.responded false (.ok (object [("error", str "invalid key")])))
        (object [("text", str "dividend")])).run.sent
      = [⟨500, object [("success", bool false),
          ("error", str "Failed to get explanation from AI")]⟩] :=
  ⟨(C5_provider_failure (fun _ => .error syntaxError) asciiLower none
      (object [("text", str "dividend")]) undefined "dividend" _ _ rfl (by decide) rfl rfl
      rfl).1 ⟨"Error", "timeout"⟩,
   (C5_provider_failure (fun _ => .error syntaxError) asciiLower none
      (object [("text", str "dividend")]) undefined "dividend" _ _ rfl (by decide) rfl rfl
      rfl).2.2.1 ⟨"Error", "timeout"⟩,
   (C5_provider_failure (fun _ => .error syntaxError) asciiLower none
      (object [("text", str "dividend")]) undefined "dividend" _ _ rfl (by decide) rfl rfl
      rfl).2.2.2.1 (object [("error", str "invalid key")])⟩

/-- Claim C6 as stated fails: text `dividend`, a reply that parses to an object
marked financial which carries the term `""`: the term sent is the input text
`dividend`, not the reply's term. -/
theorem C6_counterexample :
    getProp (object [("isFinancial", bool true), ("term", str ""),
        ("definition", str "A payout.")]) "term" = .ok (str "")
    ∧ (Server.explainHandler
        (fun _ => .ok (object [("isFinancial", bool true), ("term", str ""),
          ("definition", str "A payout.")]))
        (.resolved (completionWith
          (str "\x7b\"isFinancial\":true,\"term\":\"\",\"definition\":\"A payout.\"\x7d")))
        (object [("text", str "dividend")])).run.sent
      = [⟨200, financialBody (str "dividend") "**A payout.**"⟩] :=
  ⟨rfl, rfl⟩

/-- Claim C6, amended: for a non-empty text and a reply marked financial whose
explanation is built, the term sent by the handler of `src/server.js` is the
reply's term when that term is truthy (a non-empty string, for one), and the input
text when the reply has no term or a falsy one (null, the empty string, zero,
false); in the parse-fallback case the term sent is the input text. -/
theorem C6_term_default (jsonParse : String → Except JsError JVal)
    (body context completion : JVal) (t content reply : String)
    (h : getProp body "text" = .ok (str t)) (ht : t ≠ "")
    (hc : getProp body "context" = .ok context)
    (hu : Server.userContent (str t) context = .ok content)
    (hr : Server.replyContent completion = .ok (str reply)) :
    (∀ v f d rt tm ex, jsonParse reply = .ok v →
        getProp v "isFinancial" = .ok f → toBoolean f = true →
        getProp v "definition" = .ok d → getProp v "realTalk" = .ok rt →
        Server.buildExplanation d rt = .ok ex → getProp v "term" = .ok tm →
        (Server.explainHandler jsonParse (.resolved completion) body).run.sent
          = [⟨200, financialBody (if toBoolean tm = true then tm else str t) ex⟩])
    ∧ (∀ e, jsonParse reply = .error e → ∃ ex,
        (Server.explainHandler jsonParse (.resolved completion) body).run.sent
          = [⟨200, financialBody (str t) ex⟩]) := by
  constructor
  · intro v f d rt tm ex hp hf hb hd hrt hex htm
    exact Server.handler_financial jsonParse body context completion v f d rt tm t
      content reply ex h ht hc hu hr hp hf hb hd hrt htm hex
  · intro e hp
    exact ⟨_, Server.handler_fallback jsonParse body context completion t content reply e
      h ht hc hu hr hp⟩

/-- The amended claim C6 at the dividend scenario: the reply carries the term
`dividend` and the text highlighted was `dividends`. -/
theorem C6_term_default_witness :
    (Server.explainHandler (fun _ => .ok dividendParsed)
        (.resolved (completionWith (str dividendReply)))
        (object [("text", str "dividends")])).run.sent
      = [⟨200, financialBody (str "dividend")
          ("**A portion of profit paid to shareholders.**" ++ Server.realTalkLabel ++
            "Like a thank-you check from the company for owning a piece of it.")⟩] :=
  (C6_term_default (fun _ => .ok dividendParsed) (object [("text", str "dividends")])
    undefined (completionWith (str dividendReply)) "dividends" _ dividendReply
    rfl (by decide) rfl rfl rfl).1 dividendParsed (bool true)
    (str "A portion of profit paid to shareholders.")
    (str "Like a thank-you check from the company for owning a piece of it.")
    (str "dividend") _ rfl rfl rfl rfl rfl rfl rfl

/-- Claim C7 as stated fails: text `banana`, a reply that parses to an object
marked non-financial which provides the message `""`: the message sent is the
default message, not the reply's message. -/
theorem C7_counterexample :
    getProp (object [("isFinancial", bool false), ("message", str "")]) "message"
      = .ok (str "")
    ∧ (Server.explainHandler
        (fun _ => .ok (object [("isFinancial", bool false), ("message", str "")]))
        (.resolved (completionWith (str "\x7b\"isFinancial\":false,\"message\":\"\"\x7d")))
        (object [("text", str "banana")])).run.sent
      = [⟨200, nonFinancialBody (str Server.defaultMessage)⟩] :=
  ⟨rfl, rfl⟩

/-- Claim C7, amended: for a non-empty text and a reply that parses to an object
not marked financial (its `isFinancial` is falsy or absent), the handler of
`src/server.js` answers 200 with `{success:true, isFinancial:false, message}`,
where message is the reply's message when that message is truthy (a non-empty
string, for one) and the fixed default message when the reply has no message or a
falsy one (null, the empty string); the response carries no term and no
explanation. -/
theorem C7_non_financial_variant (jsonParse : String → Except JsError JVal)
    (body context completion f m : JVal) (kvs : JFields) (t content reply : String)
    (h : getProp body "text" = .ok (str t)) (ht : t ≠ "")
    (hc : getProp body "context" = .ok context)
    (hu : Server.userContent (str t) context = .ok content)
    (hr : Server.replyContent completion = .ok (str reply))
    (hp : jsonParse reply = .ok (obj kvs))
    (hf : getProp (obj kvs) "isFinancial" = .ok f) (hb : toBoolean f = false)
    (hm : getProp (obj kvs) "message" = .ok m) :
    ∃ message,
      (Server.explainHandler jsonParse (.resolved completion) body).run.sent
        = [⟨200, object [("success", bool true), ("isFinancial", bool false),
            ("message", message)]⟩]
      ∧ (toBoolean m = true → message = m)
      ∧ (toBoolean m = false → message = str
          "This doesn\x27t appear to be financial jargon. Try highlighting terms like \x27dividend\x27, \x27equity\x27, or \x27portfolio\x27.")
      ∧ getProp (object [("success", bool true), ("isFinancial", bool false),
            ("message", message)]) "term" = .ok undefined
      ∧ getProp (object [("success", bool true), ("isFinancial", bool false),
            ("message", message)]) "explanation" = .ok undefined := by
  refine ⟨orElse m (str Server.defaultMessage),
    Server.handler_nonFinancial jsonParse body context completion (obj kvs) f m t content reply
      h ht hc hu hr hp hf hb hm, ?_, ?_, rfl, rfl⟩
  · intro hm1
    simp [orElse, hm1]
  · intro hm0
    simp [orElse, hm0, Server.defaultMessage]

/-- The amended claim C7 at the banana scenario: the reply
`{"isFinancial":false,"message":"Not financial jargon"}`. -/
theorem C7_non_financial_variant_witness :
    ∃ message,
      (Server.explainHandler
          (fun _ => .ok (object [("isFinancial", bool false),
            ("message", str "Not financial jargon")]))
          (.resolved (completionWith
            (str "\x7b\"isFinancial\":false,\"message\":\"Not financial jargon\"\x7d")))
          (object [("text", str "banana")])).run.sent
        = [⟨200, object [("success", bool true), ("isFinancial", bool false),
            ("message", message)]⟩]
      ∧ (toBoolean (str "Not financial jargon") = true → message = str "Not financial jargon")
      ∧ (toBoolean (str "Not financial jargon") = false → message = str
          "This doesn\x27t appear to be financial jargon. Try highlighting terms like \x27dividend\x27, \x27equity\x27, or \x27portfolio\x27.")
      ∧ getProp (object [("success", bool true), ("isFinancial", bool false),
            ("message", message)]) "term" = .ok undefined
      ∧ getProp (object [("success", bool true), ("isFinancial", bool false),
            ("message", message)]) "explanation" = .ok undefined :=
  C7_non_financial_variant
    (fun _ => .ok (object [("isFinancial", bool false), ("message", str "Not financial jargon")]))
    (object [("text", str "banana")]) undefined
    (completionWith (str "\x7b\"isFinancial\":false,\"message\":\"Not financial jargon\"\x7d"))
    (bool false) (str "Not financial jargon") _ "banana" _ _ rfl (by decide) rfl rfl rfl rfl
    rfl rfl rfl

/-- Claim C8: for every request body, every provider outcome (a rejection or any
completion) and every behaviour of `JSON.parse`, the handler of `src/server.js`
ends without an escaping exception having sent exactly one response; it is one of
400 `{success:false, error}`, 500 `{success:false, error}`,
200 `{success:true, isFinancial:true, term, explanation}` and
200 `{success:true, isFinancial:false, message}`; its body carries a boolean
`success`, which is true exactly when the status is 200. -/
theorem C8_uniform_envelope (jsonParse : String → Except JsError JVal)
    (outcome : Server.ProviderOutcome) (body : JVal) :
    ∃ r, (Server.explainHandler jsonParse outcome body).run.sent = [r]
      ∧ (Server.explainHandler jsonParse outcome body).escaped = none
      ∧ (r.isFailure 400 ∨ r.isFailure 500 ∨ r.isFinancialVariant ∨ r.isNonFinancialVariant)
      ∧ ∃ b, getProp r.body "success" = .ok (bool b) ∧ (b = true ↔ r.status = 200) := by
  obtain ⟨r, calls, logs, hrun, hshape⟩ := Server.handler_total jsonParse outcome body
  refine ⟨r, ?_, ?_, ?_⟩
  · simp [Handler.run, hrun]
  · simp [Handler.escaped, hrun]
  · rcases hshape with h | h | h | h
    · subst h
      exact ⟨Or.inl ⟨rfl, _, rfl⟩, false, rfl, by decide⟩
    · subst h
      exact ⟨Or.inr (Or.inl ⟨rfl, _, rfl⟩), false, rfl, by decide⟩
    · refine ⟨Or.inr (Or.inr (Or.inl h)), true, ?_, ?_⟩
      · obtain ⟨_, tm, ex, hb⟩ := h
        rw [hb]; rfl
      · simp [h.1]
    · refine ⟨Or.inr (Or.inr (Or.inr h)), true, ?_, ?_⟩
      · obtain ⟨_, m, hb⟩ := h
        rw [hb]; rfl
      · simp [h.1]

/-- Claim C9 as stated fails: text `dividend` with the context `""` given in the
request: the `Context:` part of the user message reads `No context provided`, not
the context verbatim (which would read `Context: ""`). -/
theorem C9_counterexample :
    (Server.explainHandler (fun _ => .error syntaxError) (.rejected ⟨"Error", "timeout"⟩)
        (object [("text", str "dividend"), ("context", str "")])).run.calls
      = [.create
          { model := "gpt-3.5-turbo"
            messages := [⟨"system", Server.systemPrompt⟩,
              ⟨"user", "Highlighted text: \"dividend\"\nContext: \"No context provided\"\n\nIs this financial jargon? If yes, explain it with both a definition and Real Talk translation."⟩]
            temperature := 7 / 10
            max_tokens := 300 }]
    ∧ "Highlighted text: \"dividend\"\nContext: \"No context provided\"\n\nIs this financial jargon? If yes, explain it with both a definition and Real Talk translation."
      ≠ "Highlighted text: \"dividend\"\nContext: \"\"\n\nIs this financial jargon? If yes, explain it with both a definition and Real Talk translation." :=
  ⟨rfl, by decide⟩

/-- Claim C9, amended: for a non-empty text, the handler of `src/server.js` issues
one provider request with exactly two messages, system then user; the system
message is the constant `systemPrompt`; the user message quotes the text verbatim
after `Highlighted text:` and, after `Context:`, quotes the context verbatim when
a non-empty context string is given and the words `No context provided` when the
context is absent, null or the empty string. -/
theorem C9_prompt_construction (jsonParse : String → Except JsError JVal)
    (outcome : Server.ProviderOutcome) (body : JVal) (t : String)
    (h : getProp body "text" = .ok (str t)) (ht : t ≠ "") :
    (∀ c, getProp body "context" = .ok (str c) → c ≠ "" →
      (Server.explainHandler jsonParse outcome body).run.calls
        = [.create
            { model := "gpt-3.5-turbo"
              messages := [⟨"system", Server.systemPrompt⟩,
                ⟨"user", "Highlighted text: \"" ++ t ++ "\"\nContext: \"" ++ c ++
                  "\"\n\nIs this financial jargon? If yes, explain it with both a definition and Real Talk translation."⟩]
              temperature := 7 / 10
              max_tokens := 300 }])
    ∧ (getProp body "context" = .ok undefined ∨ getProp body "context" = .ok null
        ∨ getProp body "context" = .ok (str "") →
      (Server.explainHandler jsonParse outcome body).run.calls
        = [.create
            { model := "gpt-3.5-turbo"
              messages := [⟨"system", Server.systemPrompt⟩,
                ⟨"user", "Highlighted text: \"" ++ t ++ "\"\nContext: \"" ++
                  "No context provided" ++
                  "\"\n\nIs this financial jargon? If yes, explain it with both a definition and Real Talk translation."⟩]
              temperature := 7 / 10
              max_tokens := 300 }]) := by
  have htt : toBoolean (str t) = true := by simp [toBoolean, ht]
  constructor
  · intro c hc hne
    have hu := Server.userContent_str t (str c) c (by simp [orElse, toBoolean, hne]; rfl)
    exact Server.handler_calls jsonParse outcome body (str t) (str c) _ h hc htt hu
  · intro hc
    rcases hc with hc | hc | hc
    · have hu := Server.userContent_str t undefined "No context provided" rfl
      exact Server.handler_calls jsonParse outcome body (str t) undefined _ h hc htt hu
    · have hu := Server.userContent_str t null "No context provided" rfl
      exact Server.handler_calls jsonParse outcome body (str t) null _ h hc htt hu
    · have hu := Server.userContent_str t (str "") "No context provided" rfl
      exact Server.handler_calls jsonParse outcome body (str t) (str "") _ h hc htt hu

/-- The amended claim C9 at a concrete input: text `dividend` inside the context
`The dividend was cut`, with a provider that rejects. -/
theorem C9_prompt_construction_witness :
    (Server.explainHandler (fun _ => .error syntaxError) (.rejected ⟨"Error", "timeout"⟩)
        (object [("text", str "dividend"), ("context", str "The dividend was cut")])).run.calls
      = [.create
          { model := "gpt-3.5-turbo"
            messages := [⟨"system", Server.systemPrompt⟩,
              ⟨"user", "Highlighted text: \"" ++ "dividend" ++ "\"\nContext: \"" ++
                "The dividend was cut" ++
                "\"\n\nIs this financial jargon? If yes, explain it with both a definition and Real Talk translation."⟩]
            temperature := 7 / 10
            max_tokens := 300 }] :=
  (C9_prompt_construction (fun _ => .error syntaxError) (.rejected ⟨"Error", "timeout"⟩)
    (object [("text", str "dividend"), ("context", str "The dividend was cut")]) "dividend"
    rfl (by decide)).1 "The dividend was cut" rfl (by decide)

/-- Claim C10: in the fetch-based variant, for a non-empty text and a string reply
content returned with a success status: when the lowercased trimmed reply contains
`not financial jargon`, the response is 200
`{success:true, isFinancial:false, message:"This doesn't appear to be financial jargon."}`;
otherwise it is 200 `{success:true, isFinancial:true, term, explanation}` with the
input text as term and the trimmed reply as explanation. The trimmed reply is the
reply without a leading and a trailing run of white space, and it neither starts
nor ends with white space. -/
theorem C10_fetch_variant_classification (toLowerCase : String → String)
    (apiKey : Option String) (body context data : JVal) (t content reply : String)
    (h : getProp body "text" = .ok (str t)) (ht : t ≠ "")
    (hc : getProp body "context" = .ok context)
    (hu : FetchServer.userContent (str t) context = .ok content)
    (hr : FetchServer.replyContent data = .ok (str reply)) :
    ((∃ pre suf : String,
          toLowerCase (FetchServer.trim reply) = pre ++ "not financial jargon" ++ suf) →
        (FetchServer.explainHandler toLowerCase apiKey (.responded true (.ok data))
            body).run.sent
          = [⟨200, object [("success", bool true), ("isFinancial", bool false),
              ("message", str "This doesn\x27t appear to be financial jargon.")]⟩])
    ∧ ((¬ ∃ pre suf : String,
          toLowerCase (FetchServer.trim reply) = pre ++ "not financial jargon" ++ suf) →
        (FetchServer.explainHandler toLowerCase apiKey (.responded true (.ok data))
            body).run.sent
          = [⟨200, object [("success", bool true), ("isFinancial", bool true),
              ("term", str t), ("explanation", str (FetchServer.trim reply))]⟩])
    ∧ (∃ pre suf : List Char, reply.data = pre ++ (FetchServer.trim reply).data ++ suf
        ∧ (∀ c ∈ pre, FetchServer.isWhiteSpace c = true)
        ∧ (∀ c ∈ suf, FetchServer.isWhiteSpace c = true)
        ∧ (∀ c, (FetchServer.trim reply).data.head? = some c →
            FetchServer.isWhiteSpace c = false)
        ∧ (∀ c, (FetchServer.trim reply).data.getLast? = some c →
            FetchServer.isWhiteSpace c = false)) := by
  have htt : toBoolean (str t) = true := by simp [toBoolean, ht]
  have hs : toStr (str t) = .ok t := rfl
  refine ⟨fun hin => ?_, fun hout => ?_, FetchServer.trim_spec reply⟩
  · have hi := (FetchServer.includes_iff _ _).mpr hin
    rw [Handler.run, FetchServer.handler_responded toLowerCase apiKey body (str t) context
      content true (.ok data) h hc htt hu,
      Handler.tryCatch_ok _ _ _ _ _
        (FetchServer.respond_nonFinancial toLowerCase (str t) data reply hr hi _)]
    rfl
  · have hi : FetchServer.includes (toLowerCase (FetchServer.trim reply))
        "not financial jargon" = false := by
      cases hb : FetchServer.includes (toLowerCase (FetchServer.trim reply))
        "not financial jargon" with
      | false => rfl
      | true => exact absurd ((FetchServer.includes_iff _ _).mp hb) hout
    rw [Handler.run, FetchServer.handler_responded toLowerCase apiKey body (str t) context
      content true (.ok data) h hc htt hu,
      Handler.tryCatch_ok _ _ _ _ _
        (FetchServer.respond_financial toLowerCase (str t) data reply t hr hi hs _)]
    rfl

/-- Claim C10 at concrete inputs, under an ASCII lowercasing: text `dividend` with
the reply content `  This is Not Financial Jargon. `, and with the reply content
` A payout to shareholders. `. -/
theorem C10_fetch_variant_classification_witness :
    (FetchServer.explainHandler asciiLower none
        (.responded true (.ok (completionWith (str "  This is Not Financial Jargon. "))))
        (object [("text", str "dividend")])).run.sent
      = [⟨200, object [("success", bool true), ("isFinancial", bool false),
          ("message", str "This doesn\x27t appear to be financial jargon.")]⟩]
    ∧ (FetchServer.explainHandler asciiLower none
        (.responded true (.ok (completionWith (str " A payout to shareholders. "))))
        (object [("text", str "dividend")])).run.sent
      = [⟨200, object [("success", bool true), ("isFinancial", bool true),
          ("term", str "dividend"),
          ("explanation", str (FetchServer.trim " A payout to shareholders. "))]⟩]
    ∧ FetchServer.trim " A payout to shareholders. " = "A payout to shareholders." :=
  ⟨(C10_fetch_variant_classification asciiLower none (object [("text", str "dividend")])
      undefined (completionWith (str "  This is Not Financial Jargon. ")) "dividend" _
      "  This is Not Financial Jargon. " rfl (by decide) rfl rfl rfl).1
      ⟨"this is ", ".", by decide⟩,
   (C10_fetch_variant_classification asciiLower none (object [("text", str "dividend")])
      undefined (completionWith (str " A payout to shareholders. ")) "dividend" _
      " A payout to shareholders. " rfl (by decide) rfl rfl rfl).2.1
      (fun hin => absurd ((FetchServer.includes_iff _ _).mpr hin) (by decide)),
   by decide⟩

end AskAyo
